import Mathlib

/-!
Verification of the Brawlhalla_Scraper repository.

The repository's core is duplicated across four Python files
(`src/Region/scrape_brawlhalla.py`, `src/Region/retry_failed_pages.py`,
`src/Global/scrape_global_regions.py`, `src/Global/retry_failed_pages_global.py`).
This development shallowly embeds the shared algorithms once, naming each
definition after the Python symbol it translates, and proves properties of
those embeddings.

Modelling conventions:
* JSON values decoded by `json.loads` are modelled by the inductive `JSON`
  below.  Python dicts are association lists with unique keys (as produced by
  a JSON parser); Python booleans are modelled by `JSON.bool` — note that in
  Python `isinstance(True, int)` is `True` and `True - 0 == 1`, which the
  arithmetic helpers below reproduce.  JSON numbers are modelled as integers
  (the payloads of interest carry integer ratings; non-integral numbers play
  no role in any claim settled here).
* Python list indexing `data[t]` (negative indices wrap from the tail,
  out-of-range raises `IndexError`) is modelled by `pyIdx`, which returns
  `none` exactly when CPython raises `IndexError`.
* An uncaught Python exception is modelled by an `Option`-valued function
  returning `none`; each such function documents which exception `none`
  stands for.
-/

/-- A Python value decoded from JSON text by `json.loads`. -/
inductive JSON where
  | null
  | bool (b : Bool)
  | int (n : Int)
  | str (s : String)
  | arr (xs : List JSON)
  | obj (kvs : List (String × JSON))

/-- `d.get(k)` / `d[k]` on a Python dict modelled as an association list
(keys unique, first match). -/
def dget (kvs : List (String × JSON)) (k : String) : Option JSON :=
  (kvs.find? (fun p => p.1 == k)).map (·.2)

mutual

/-- `find_data_array` — identical in all four source files
(e.g. `src/Region/scrape_brawlhalla.py` lines 74–93): depth-first search for
the first object of the form `{"type": "data", "data": [...]}`.  At a dict,
a match returns its `data` list immediately (even when that list is empty);
otherwise children are searched in order and a child's result is kept only
when non-empty (Python's `if res:`). -/
def find_data_array : JSON → List JSON
  | .obj kvs =>
    match dget kvs "type", dget kvs "data" with
    | some (.str "data"), some (.arr d) => d
    | _, _ => findValues kvs
  | .arr xs => findItems xs
  | _ => []

/-- The `for v in obj.values()` loop of `find_data_array`. -/
def findValues : List (String × JSON) → List JSON
  | [] => []
  | kv :: rest =>
    let res := find_data_array kv.2
    if res.isEmpty then findValues rest else res

/-- The `for item in obj` loop of `find_data_array`. -/
def findItems : List JSON → List JSON
  | [] => []
  | x :: rest =>
    let res := find_data_array x
    if res.isEmpty then findItems rest else res

end

mutual

/-- Specification-side companion of `find_data_array`: the list, in the same
depth-first traversal order, of the `data` arrays of every map matching
`{"type": "data", "data": [...]}`, where (mirroring the source's immediate
`return`) the children of a matching map are never visited. -/
def matchArrays : JSON → List (List JSON)
  | .obj kvs =>
    match dget kvs "type", dget kvs "data" with
    | some (.str "data"), some (.arr d) => [d]
    | _, _ => matchValues kvs
  | .arr xs => matchItems xs
  | _ => []

/-- `matchArrays` over the values of a dict. -/
def matchValues : List (String × JSON) → List (List JSON)
  | [] => []
  | kv :: rest => matchArrays kv.2 ++ matchValues rest

/-- `matchArrays` over the items of a list. -/
def matchItems : List JSON → List (List JSON)
  | [] => []
  | x :: rest => matchArrays x ++ matchItems rest

end

/-- Python-integer coercion used by arithmetic and indexing: in CPython,
`bool` is a subclass of `int` (`True - 0 == 1`, `isinstance(True, int)`),
so both integers and booleans coerce; every other JSON value does not. -/
def pyAsInt : JSON → Option Int
  | .int n => some n
  | .bool b => some (if b then 1 else 0)
  | _ => none

/-- Python binary `-`: defined on int/bool operands, raises `TypeError`
(modelled as `none`) on anything else. -/
def pySub (a b : JSON) : Option Int := do
  let x ← pyAsInt a
  let y ← pyAsInt b
  pure (x - y)

/-- Python `xs[t]` for an integer index `t`: indices in `[0, n)` read
directly, indices in `[-n, 0)` wrap to the tail (`xs[n + t]`), anything else
raises `IndexError` (modelled as `none`). -/
def pyIdx {α : Type} (xs : List α) (t : Int) : Option α :=
  if 0 ≤ t then xs[t.toNat]?
  else if 0 ≤ (xs.length : Int) + t then xs[((xs.length : Int) + t).toNat]?
  else none

/-- Python `isinstance(v, int)` on a decoded JSON value: true for integers
and booleans (a CPython `bool` is an `int`), false otherwise. -/
def isPyIntInstance : JSON → Bool
  | .int _ => true
  | .bool _ => true
  | _ => false

/-- The `REGIONS` constant of the Global scraper and its retry twin. -/
def REGIONS : List String :=
  ["US-E", "EU", "SEA", "BRZ", "AUS", "US-W", "JPN", "SA", "ME"]

/-- `STOP_AFTER` — consecutive-empty-page stop threshold (both scrapers). -/
def STOP_AFTER : Nat := 10

/-- `MAX_RETRIES` — attempts per page in both retry scripts. -/
def MAX_RETRIES : Nat := 3

/-- Outcome of inspecting one cursor position of the regional decoder
(the body of the `while` loop of `get_one_page`,
`src/Region/scrape_brawlhalla.py` lines 127–144; the loop in
`src/Region/retry_failed_pages.py` lines 127–144 is identical).
`raiseTypeError` models an uncaught `TypeError` from `m[f] - m["rank"]` on
non-numeric operands; `skipRow` covers both a caught `IndexError` and a
failed `isinstance` validation; in every non-raising case the cursor then
advances to `i + 1`. -/
inductive RegionRowOutcome where
  | noHeader
  | skipRow
  | raiseTypeError
  | emit (season peak : JSON)

/-- One iteration of the regional decoding loop at cursor `i`, mirroring the
source statement order: `peak` is computed (subtraction, then index) before
`season`; an `IndexError` is caught, a `TypeError` is not. -/
def regionRow (data : List JSON) (i : Nat) : RegionRowOutcome :=
  match data[i]? with
  | some (.obj kvs) =>
    match dget kvs "peakRating", dget kvs "seasonRating", dget kvs "rank" with
    | some vp, some vs, some vr =>
      match pySub vp vr with
      | none => .raiseTypeError
      | some offP =>
        match pyIdx data ((i : Int) + 1 + offP) with
        | none => .skipRow
        | some peak =>
          match pySub vs vr with
          | none => .raiseTypeError
          | some offS =>
            match pyIdx data ((i : Int) + 1 + offS) with
            | none => .skipRow
            | some season =>
              if isPyIntInstance peak && isPyIntInstance season then .emit season peak
              else .skipRow
    | _, _, _ => .noHeader
  | _ => .noHeader

/-- The `while i < len(data)` scan of `get_one_page` from cursor `i`, with
the structurally decreasing count `fuel` of remaining positions (invariant
`fuel = data.length - i`, maintained by `regionScanFrom` below): returns
`(seasons, peaks)` in append order, or `none` when an uncaught `TypeError`
aborts the whole call.  The cursor advances by exactly one both after a
header cell (`i = start_idx`, i.e. `i + 1`) and after any other element
(`i += 1`). -/
def regionScanGo (data : List JSON) : Nat → Nat → Option (List JSON × List JSON)
  | 0, _ => some ([], [])
  | fuel + 1, i =>
    if i < data.length then
      match regionRow data i with
      | .raiseTypeError => none
      | .emit season peak =>
        (regionScanGo data fuel (i + 1)).map (fun sp => (season :: sp.1, peak :: sp.2))
      | _ => regionScanGo data fuel (i + 1)
    else some ([], [])

/-- The decoding scan of `get_one_page` starting at cursor `i`. -/
def regionScanFrom (data : List JSON) (i : Nat) : Option (List JSON × List JSON) :=
  regionScanGo data (data.length - i) i

/-- The full decoding scan of `get_one_page` (cursor starts at 0). -/
def regionScan (data : List JSON) : Option (List JSON × List JSON) :=
  regionScanFrom data 0

/-- One HTTP fetch outcome, as observed by the scrapers through `requests`:
either a `requests.exceptions.RequestException` (network error or timeout),
or a response with a status code and a body.  The body is `some root` when
`resp.text` parses as JSON and `none` when `json.loads` would raise. -/
inductive Http where
  | netError
  | resp (status : Nat) (body : Option JSON)

/-- `get_one_page` (`src/Region/scrape_brawlhalla.py` lines 96–145) given
the fetch outcome: network errors and non-200 statuses yield `([], [])`; on
a 200 the body is parsed (`none` result models the uncaught
`json.JSONDecodeError` when the text is not JSON), the payload is located,
an absent payload yields `([], [])`, and otherwise the decoding scan runs
(whose uncaught `TypeError` also surfaces as `none`). -/
def get_one_page (h : Http) : Option (List JSON × List JSON) :=
  match h with
  | .netError => some ([], [])
  | .resp status body =>
    if status ≠ 200 then some ([], [])
    else
      match body with
      | none => none
      | some root =>
        let data := find_data_array root
        if data.isEmpty then some ([], [])
        else regionScan data

/-- Outcome of one cursor position of the global decoder (the `while` loop
of `scrape_page`, `src/Global/scrape_global_regions.py` lines 148–176; the
loop in `src/Global/retry_failed_pages_global.py` lines 125–154 is
identical).  The source computes the three offsets first (each subtraction
can raise an uncaught `TypeError`), then performs the three indexings (an
`IndexError` is caught), then validates. -/
inductive GlobalRowOutcome where
  | noHeader
  | skipRow
  | raiseTypeError
  | emit (region : String) (season peak : JSON)

/-- One iteration of the global decoding loop at cursor `i`. -/
def globalRow (data : List JSON) (i : Nat) : GlobalRowOutcome :=
  match data[i]? with
  | some (.obj kvs) =>
    match dget kvs "region", dget kvs "seasonRating", dget kvs "peakRating", dget kvs "rank" with
    | some vg, some vs, some vp, some vr =>
      match pySub vg vr with
      | none => .raiseTypeError
      | some offReg =>
        match pySub vs vr with
        | none => .raiseTypeError
        | some offSeas =>
          match pySub vp vr with
          | none => .raiseTypeError
          | some offPeak =>
            match pyIdx data ((i : Int) + 1 + offReg) with
            | none => .skipRow
            | some region =>
              match pyIdx data ((i : Int) + 1 + offSeas) with
              | none => .skipRow
              | some season =>
                match pyIdx data ((i : Int) + 1 + offPeak) with
                | none => .skipRow
                | some peak =>
                  match region with
                  | .str rs =>
                    if REGIONS.contains rs && isPyIntInstance season && isPyIntInstance peak then
                      .emit rs season peak
                    else .skipRow
                  | _ => .skipRow
    | _, _, _, _ => .noHeader
  | _ => .noHeader

/-- `by_region.setdefault(region, []).append((season, peak))`: Python dicts
iterate in insertion order, modelled by an association list where a new key
is appended at the end and an existing key has the pair appended to its
list. -/
def setdefaultAppend (m : List (String × List (JSON × JSON))) (k : String) (v : JSON × JSON) :
    List (String × List (JSON × JSON)) :=
  match m with
  | [] => [(k, [v])]
  | (k0, vs) :: rest =>
    if k0 == k then (k0, vs ++ [v]) :: rest
    else (k0, vs) :: setdefaultAppend rest k v

/-- The `while i < len(data)` scan of the global `scrape_page` from cursor
`i` with the accumulated `by_region` mapping and the structurally
decreasing count of remaining positions (invariant `fuel = data.length - i`,
maintained by `globalScanFrom` below); `none` models an uncaught
`TypeError`.  The cursor advances by exactly one in every non-raising
case. -/
def globalScanGo (data : List JSON) :
    Nat → Nat → List (String × List (JSON × JSON)) → Option (List (String × List (JSON × JSON)))
  | 0, _, acc => some acc
  | fuel + 1, i, acc =>
    if i < data.length then
      match globalRow data i with
      | .raiseTypeError => none
      | .emit rs season peak => globalScanGo data fuel (i + 1) (setdefaultAppend acc rs (season, peak))
      | _ => globalScanGo data fuel (i + 1) acc
    else some acc

/-- The global decoding scan starting at cursor `i`. -/
def globalScanFrom (data : List JSON) (i : Nat) (acc : List (String × List (JSON × JSON))) :
    Option (List (String × List (JSON × JSON))) :=
  globalScanGo data (data.length - i) i acc

/-- The full `by_region` construction of the global `scrape_page` on an
already-located cell array. -/
def scrape_page_rows (data : List JSON) : Option (List (String × List (JSON × JSON))) :=
  globalScanFrom data 0 []

/-! ### The regional harvest loop (`main` of `src/Region/scrape_brawlhalla.py`) -/

/-- In-memory view of the loop state of the regional `main` together with
the on-disk files it mutates.  `checkpoint` is the content of
`last_page.txt` (`none` when absent), `failLog` the lines of
`failed_pages.txt`, and the two file fields the appended rating values. -/
structure HState where
  page : Nat
  consecutiveEmpty : Nat
  failLog : List Nat
  seasonsFile : List JSON
  peaksFile : List JSON
  checkpoint : Option Nat
  fetchCount : Nat

/-- An observable file-system action of one iteration of the regional
`main` loop, in program order. -/
inductive REv where
  | appendSeason (vals : List JSON)
  | appendPeak (vals : List JSON)
  | writeCheckpoint (page : Nat)
  | appendFail (page : Nat)

/-- Start-of-run state (`main` lines 170–182): resume at `checkpoint + 1`
when `last_page.txt` exists, else at page 1. -/
def initState (checkpointFile : Option Nat) (priorFailLog : List Nat)
    (priorSeasons priorPeaks : List JSON) : HState :=
  { page := match checkpointFile with | some n => n + 1 | none => 1
    consecutiveEmpty := 0
    failLog := priorFailLog
    seasonsFile := priorSeasons
    peaksFile := priorPeaks
    checkpoint := checkpointFile
    fetchCount := 0 }

/-- One iteration of the `while consecutive_empty < STOP_AFTER` loop
(`main` lines 184–204), with `get_one_page` abstracted into the oracle
`fetch`: on a page with rows (`if peaks:`) append seasons, append peaks,
write the checkpoint, reset the streak; otherwise bump the streak and
append the page to the failed log.  Either way `page += 1`. -/
def loopStep (fetch : Nat → List JSON × List JSON) (s : HState) : HState :=
  let r := fetch s.page
  if !r.2.isEmpty then
    { s with
      seasonsFile := s.seasonsFile ++ r.1
      peaksFile := s.peaksFile ++ r.2
      checkpoint := some s.page
      consecutiveEmpty := 0
      page := s.page + 1
      fetchCount := s.fetchCount + 1 }
  else
    { s with
      consecutiveEmpty := s.consecutiveEmpty + 1
      failLog := s.failLog ++ [s.page]
      page := s.page + 1
      fetchCount := s.fetchCount + 1 }

/-- The file-system actions of one iteration of the regional `main` loop,
in the order the source performs them. -/
def stepEvents (fetch : Nat → List JSON × List JSON) (s : HState) : List REv :=
  let r := fetch s.page
  if !r.2.isEmpty then
    [.appendSeason r.1, .appendPeak r.2, .writeCheckpoint s.page]
  else
    [.appendFail s.page]

/-- The regional `main` loop run with the given fuel (the Python loop has
no fuel; every claim below concerns runs that terminate within the supplied
fuel, and is shown not to depend on its exact value).  Returns the final
state and the concatenated file-system action trace. -/
def runLoop (fetch : Nat → List JSON × List JSON) : Nat → HState → HState × List REv
  | 0, s => (s, [])
  | fuel + 1, s =>
    if s.consecutiveEmpty < STOP_AFTER then
      let rest := runLoop fetch fuel (loopStep fetch s)
      (rest.1, stepEvents fetch s ++ rest.2)
    else (s, [])

/-! ### The global harvest loop (`main` of `src/Global/scrape_global_regions.py`) -/

/-- An observable file-system action of one iteration of the global `main`
loop (lines 219–245).  Each region bucket gets its two appends, the global
buckets get theirs, and only then is the checkpoint written. -/
inductive GEv where
  | appendRegionSeason (region : String) (vals : List JSON)
  | appendRegionPeak (region : String) (vals : List JSON)
  | appendGlobalSeason (vals : List JSON)
  | appendGlobalPeak (vals : List JSON)
  | writeCheckpoint (page : Nat)
  | appendFail (page : Nat)

/-- The appends performed for one successful page by the global `main`
(lines 225–230): for each `(reg, rows)` of `rows_by_region`, in insertion
order, `zip(*rows)` splits the `(season, peak)` pairs and four appends
follow. -/
def globalPageEvents (byRegion : List (String × List (JSON × JSON))) : List GEv :=
  byRegion.flatMap (fun rv =>
    [.appendRegionSeason rv.1 (rv.2.map Prod.fst),
     .appendRegionPeak rv.1 (rv.2.map Prod.snd),
     .appendGlobalSeason (rv.2.map Prod.fst),
     .appendGlobalPeak (rv.2.map Prod.snd)])

/-- Loop state of the global `main` (only what its trace claims need). -/
structure GState where
  page : Nat
  consecutiveEmpty : Nat
  checkpoint : Option Nat

/-- One iteration of the global `main` loop (lines 219–245), with
`scrape_page` abstracted into the oracle `fetch`. -/
def gLoopStep (fetch : Nat → List (String × List (JSON × JSON))) (s : GState) : GState :=
  if !(fetch s.page).isEmpty then
    { s with page := s.page + 1, consecutiveEmpty := 0, checkpoint := some s.page }
  else
    { s with page := s.page + 1, consecutiveEmpty := s.consecutiveEmpty + 1 }

/-- The file-system actions of one iteration of the global `main` loop. -/
def gStepEvents (fetch : Nat → List (String × List (JSON × JSON))) (s : GState) : List GEv :=
  let r := fetch s.page
  if !r.isEmpty then globalPageEvents r ++ [.writeCheckpoint s.page]
  else [.appendFail s.page]

/-- The global `main` loop run with the given fuel. -/
def gRunLoop (fetch : Nat → List (String × List (JSON × JSON))) :
    Nat → GState → GState × List GEv
  | 0, s => (s, [])
  | fuel + 1, s =>
    if s.consecutiveEmpty < STOP_AFTER then
      let rest := gRunLoop fetch fuel (gLoopStep fetch s)
      (rest.1, gStepEvents fetch s ++ rest.2)
    else (s, [])

/-! ### The retry runner (`main` of `src/Region/retry_failed_pages.py`) -/

/-- `line.strip()` on the character list of a line. -/
def stripChars (cs : List Char) : List Char :=
  ((cs.dropWhile Char.isWhitespace).reverse.dropWhile Char.isWhitespace).reverse

/-- `int(t)` on a non-empty all-digit string. -/
def digitsToNat (cs : List Char) : Nat :=
  cs.foldl (fun n c => 10 * n + (c.toNat - 48)) 0

/-- `int(line.strip()) if line.strip().isdigit() else skip` — the per-line
filter of the retry `main`s (ASCII digits; the exotic Unicode digits
`str.isdigit` also accepts do not occur in a file the scrapers wrote). -/
def pyParsePage (s : String) : Option Nat :=
  let cs := stripChars s.data
  if !cs.isEmpty && cs.all Char.isDigit then some (digitsToNat cs) else none

/-- Loading and sanitising `failed_pages.txt` (retry `main` lines 168–172):
keep the lines that `str.isdigit` accepts after stripping, convert to
integers, deduplicate through a set, and sort ascending (`dedup` followed
by `insertionSort` produces the same list as Python's `sorted(set(...))`:
the distinct values in ascending order). -/
def loadPages (lns : List String) : List Nat :=
  ((lns.filterMap pyParsePage).dedup).insertionSort (· ≤ ·)

/-- The `for attempt in range(1, MAX_RETRIES + 1)` loop for one page
(retry `main` lines 183–193): `fetch p a` is the decoded result of
`scrape_page(p)` on attempt `a`; the first attempt with non-empty `peaks`
wins and its result is returned, `none` after the budget is exhausted. -/
def retryAttemptsFrom (fetch : Nat → Nat → List JSON × List JSON) (p attempt budget : Nat) :
    Option (List JSON × List JSON) :=
  match budget with
  | 0 => none
  | b + 1 =>
    let r := fetch p attempt
    if !r.2.isEmpty then some r else retryAttemptsFrom fetch p (attempt + 1) b

/-- All retry attempts for one page, starting at attempt 1 with the full
`MAX_RETRIES` budget. -/
def retry_page (fetch : Nat → Nat → List JSON × List JSON) (p : Nat) :
    Option (List JSON × List JSON) :=
  retryAttemptsFrom fetch p 1 MAX_RETRIES

/-- Specification-side description of the retry schedule: the first attempt
number in `1..MAX_RETRIES` whose fetch yields rows. -/
def firstHit (fetch : Nat → Nat → List JSON × List JSON) (p : Nat) : Option Nat :=
  ((List.range MAX_RETRIES).map (· + 1)).find? (fun a => !(fetch p a).2.isEmpty)

/-- The two region bucket files the retry runner appends to. -/
structure RetryFiles where
  seasonsFile : List JSON
  peaksFile : List JSON

/-- The `for page in pages` loop of the retry `main` (lines 181–195):
recovered pages append their rows to both bucket files once; pages that
exhaust the budget are collected into `still_failed` in order. -/
def retryFold (fetch : Nat → Nat → List JSON × List JSON) :
    List Nat → RetryFiles → List Nat → RetryFiles × List Nat
  | [], files, still => (files, still)
  | p :: rest, files, still =>
    match retry_page fetch p with
    | some r =>
      retryFold fetch rest
        { seasonsFile := files.seasonsFile ++ r.1, peaksFile := files.peaksFile ++ r.2 } still
    | none => retryFold fetch rest files (still ++ [p])

/-- `main` of `src/Region/retry_failed_pages.py` (lines 156–205):
`failFile` is the content of `failed_pages.txt` (`none` when the file does
not exist).  Returns the final bucket files and `some finalLog` when the
failed-page file is overwritten with `still_failed`, `none` when the run
returns early and leaves the file untouched. -/
def retry_main (fetch : Nat → Nat → List JSON × List JSON) (failFile : Option (List String))
    (files : RetryFiles) : RetryFiles × Option (List Nat) :=
  match failFile with
  | none => (files, none)
  | some lns =>
    let pages := loadPages lns
    if pages.isEmpty then (files, none)
    else
      let r := retryFold fetch pages files []
      (r.1, some r.2)

/-- The non-empty-filtering predicate of Python's `if res:` on a list. -/
def nonEmptyList (l : List JSON) : Bool := !l.isEmpty

/-- Verification-side sanity check on one cell: if the cell is a map
carrying all three regional header keys, its three values are Python
integers (or booleans).  Cell arrays all of whose members satisfy this are
exactly those on which the regional decoder's header arithmetic
`m[f] - m["rank"]` cannot raise `TypeError`. -/
def headerValuesOk (v : JSON) : Bool :=
  match v with
  | .obj kvs =>
    match dget kvs "peakRating", dget kvs "seasonRating", dget kvs "rank" with
    | some vp, some vs, some vr =>
      (pyAsInt vp).isSome && (pyAsInt vs).isSome && (pyAsInt vr).isSome
    | _, _, _ => true
  | _ => true

/-- The validation conjunction of the global decoder
(`scrape_global_regions.py` lines 164–167): `isinstance(region, str) and
region in REGIONS and isinstance(season, int) and isinstance(peak, int)`.
`isPyIntInstance` is Python's `isinstance(·, int)`, which booleans also
satisfy. -/
def globalValidation (region season peak : JSON) : Bool :=
  match region with
  | .str rg => REGIONS.contains rg && isPyIntInstance season && isPyIntInstance peak
  | _ => false

/-- Strict integer test on a JSON value (specification-side: `true` exactly
for integer values, *excluding* booleans — contrast `isPyIntInstance`). -/
def isIntValue : JSON → Bool
  | .int _ => true
  | _ => false

/-! ## Theorems -/

/-- Characterisation of `find_data_array` (all three mutual functions at
once): the result is the first non-empty array among the matches in
depth-first order, and the empty list when every match is empty or there is
none. -/
theorem find_data_array_matches_all :
    (∀ t : JSON,
      find_data_array t = ((matchArrays t).find? nonEmptyList).getD [])
    ∧ (∀ xs : List JSON,
      findItems xs = ((matchItems xs).find? nonEmptyList).getD [])
    ∧ (∀ kvs : List (String × JSON),
      findValues kvs = ((matchValues kvs).find? nonEmptyList).getD []) := by
  apply find_data_array.mutual_induct
  · intro kvs d hdata htype
    rw [find_data_array, matchArrays, htype, hdata]
    cases d with
    | nil => rfl
    | cons a l => rfl
  · intro kvs hno ih
    have h1 : find_data_array (JSON.obj kvs) = findValues kvs := by
      rw [find_data_array]
      split
      next d heq1 heq2 => exact absurd heq2 (fun h => hno d heq1 h)
      next => rfl
    have h2 : matchArrays (JSON.obj kvs) = matchValues kvs := by
      rw [matchArrays]
      split
      next d heq1 heq2 => exact absurd heq2 (fun h => hno d heq1 h)
      next => rfl
    rw [h1, h2]
    exact ih
  · intro xs ih
    rw [find_data_array, matchArrays]
    exact ih
  · intro t hobj harr
    cases t with
    | obj kvs => exact absurd rfl (hobj kvs)
    | arr xs => exact absurd rfl (harr xs)
    | null => rfl
    | bool b => rfl
    | int n => rfl
    | str s => rfl
  · rfl
  · intro x rest res hEmpty ihx ihrest
    have hres2 : (find_data_array x).isEmpty = true := hEmpty
    rw [findItems, matchItems, List.find?_append, if_pos hres2]
    have hfind : (matchArrays x).find? nonEmptyList = none := by
      cases hf : (matchArrays x).find? nonEmptyList with
      | none => rfl
      | some a =>
        have hp : nonEmptyList a = true := List.find?_some hf
        have hx : find_data_array x = a := by rw [ihx, hf]; rfl
        rw [hx] at hres2
        simp [nonEmptyList, hres2] at hp
    rw [hfind, Option.none_or]
    exact ihrest
  · intro x rest res hNe ihx
    have hres2 : ¬(find_data_array x).isEmpty = true := hNe
    rw [findItems, matchItems, List.find?_append, if_neg hres2]
    cases hf : (matchArrays x).find? nonEmptyList with
    | none =>
      have hx : find_data_array x = [] := by rw [ihx, hf]; rfl
      rw [hx] at hres2
      simp at hres2
    | some a =>
      have hx : find_data_array x = a := by rw [ihx, hf]; rfl
      rw [hx]
      rfl
  · rfl
  · intro kv rest res hEmpty ihx ihrest
    have hres2 : (find_data_array kv.2).isEmpty = true := hEmpty
    rw [findValues, matchValues, List.find?_append, if_pos hres2]
    have hfind : (matchArrays kv.2).find? nonEmptyList = none := by
      cases hf : (matchArrays kv.2).find? nonEmptyList with
      | none => rfl
      | some a =>
        have hp : nonEmptyList a = true := List.find?_some hf
        have hx : find_data_array kv.2 = a := by rw [ihx, hf]; rfl
        rw [hx] at hres2
        simp [nonEmptyList, hres2] at hp
    rw [hfind, Option.none_or]
    exact ihrest
  · intro kv rest res hNe ihx
    have hres2 : ¬(find_data_array kv.2).isEmpty = true := hNe
    rw [findValues, matchValues, List.find?_append, if_neg hres2]
    cases hf : (matchArrays kv.2).find? nonEmptyList with
    | none =>
      have hx : find_data_array kv.2 = [] := by rw [ihx, hf]; rfl
      rw [hx] at hres2
      simp at hres2
    | some a =>
      have hx : find_data_array kv.2 = a := by rw [ihx, hf]; rfl
      rw [hx]
      rfl

/-- `pyIdx` on a non-negative index is plain list lookup. -/
theorem pyIdx_nonneg {α : Type} (xs : List α) (t : Int) (h : 0 ≤ t) :
    pyIdx xs t = xs[t.toNat]? := by
  rw [pyIdx, if_pos h]

/-- `pyIdx` on an index in `[-n, 0)` wraps to the tail. -/
theorem pyIdx_neg_wrap {α : Type} (xs : List α) (t : Int) (h : t < 0)
    (h2 : 0 ≤ (xs.length : Int) + t) :
    pyIdx xs t = xs[((xs.length : Int) + t).toNat]? := by
  rw [pyIdx, if_neg (by omega), if_pos h2]

/-- `pyIdx` raises `IndexError` exactly outside `[-n, n)`. -/
theorem pyIdx_oob {α : Type} (xs : List α) (t : Int)
    (h : (xs.length : Int) ≤ t ∨ t < -(xs.length : Int)) :
    pyIdx xs t = none := by
  rcases h with h | h
  · rw [pyIdx, if_pos (by omega)]
    rw [List.getElem?_eq_none_iff]
    omega
  · rw [pyIdx, if_neg (by omega), if_neg (by omega)]

/-- C3 counterexample: in the tree
`[{"type": "data", "data": []}, {"type": "data", "data": [1]}]` the first
map in depth-first traversal order whose discriminator equals the sentinel
and whose paired field is a sequence is the first element, carrying the
sequence `[]` — as the second conjunct records, the match list in traversal
order is `[[], [1]]` — yet `find_data_array` returns `[1]`, the sequence of
the *second* matching map: Python's `if res:` filter skips nested matches
whose sequence is empty, refuting the claimed first-match-wins law. -/
theorem C3_counterexample :
    find_data_array
      (.arr [.obj [("type", .str "data"), ("data", .arr [])],
             .obj [("type", .str "data"), ("data", .arr [.int 1])]])
      = [JSON.int 1]
    ∧ matchArrays
      (.arr [.obj [("type", .str "data"), ("data", .arr [])],
             .obj [("type", .str "data"), ("data", .arr [.int 1])]])
      = [[], [JSON.int 1]] := ⟨rfl, rfl⟩

/-- C3 (amended): the depth-first search returns the sequence paired with
the first map in traversal order whose discriminator field equals the
sentinel tag and whose paired field is a *non-empty* sequence (matches
carrying an empty sequence are skipped unless nothing later matches, the
children of a matching map are never searched, and a match at the root
returns its sequence directly — all captured by `matchArrays`); for a tree
with no matching map at all it returns the empty sequence rather than an
error, and for a tree whose pruned traversal contains exactly one matching
map it returns that map's sequence by value (even when empty, since the
empty sequence is also the not-found result). -/
theorem C3_payload_locator :
    (∀ t : JSON, find_data_array t = ((matchArrays t).find? nonEmptyList).getD [])
    ∧ (∀ t : JSON, matchArrays t = [] → find_data_array t = [])
    ∧ (∀ (t : JSON) (a : List JSON), matchArrays t = [a] → find_data_array t = a) := by
  refine ⟨find_data_array_matches_all.1, ?_, ?_⟩
  · intro t h
    rw [find_data_array_matches_all.1, h]
    rfl
  · intro t a h
    rw [find_data_array_matches_all.1, h]
    cases a with
    | nil => rfl
    | cons x l => rfl

/-- Witness for `C3_payload_locator` at concrete inputs: a tree with no
matching map, and a tree whose only match (`{"type": "data", "data": [5]}`)
sits at nesting depth 3. -/
theorem C3_payload_locator_witness :
    find_data_array (.arr [.int 3, .str "data"]) = []
    ∧ find_data_array
        (.obj [("k", .arr [.null,
            .obj [("type", .str "data"), ("data", .arr [.int 5])]])])
      = [JSON.int 5] :=
  ⟨C3_payload_locator.2.1 (.arr [.int 3, .str "data"]) rfl,
   C3_payload_locator.2.2
     (.obj [("k", .arr [.null, .obj [("type", .str "data"), ("data", .arr [.int 5])]])])
     [JSON.int 5] rfl⟩

/-- C1 (offset law of the RowDecoder): in both decoders, for a header cell
at cursor `i` — a map carrying integer values for every wanted field and
the baseline field `"rank"` — when every wanted field's target index
`i + 1 + (header[F] - header["rank"])` is in bounds and every value read
there passes its type validation, the decoder emits a record whose value
for field `F` is exactly the array element at that target index
(first conjunct: the regional decoder's `seasonRating`/`peakRating`;
second conjunct: the global decoder's `region`/`seasonRating`/`peakRating`). -/
theorem C1_offset_law :
    (∀ (data : List JSON) (i : Nat) (kvs : List (String × JSON)) (np ns nr : Int)
        (vpk vse : JSON),
      data[i]? = some (.obj kvs) →
      dget kvs "peakRating" = some (.int np) →
      dget kvs "seasonRating" = some (.int ns) →
      dget kvs "rank" = some (.int nr) →
      0 ≤ (i : Int) + 1 + (np - nr) →
      0 ≤ (i : Int) + 1 + (ns - nr) →
      data[((i : Int) + 1 + (np - nr)).toNat]? = some vpk →
      data[((i : Int) + 1 + (ns - nr)).toNat]? = some vse →
      isPyIntInstance vpk = true →
      isPyIntInstance vse = true →
      regionRow data i = .emit vse vpk)
    ∧ (∀ (data : List JSON) (i : Nat) (kvs : List (String × JSON)) (ng ns np nr : Int)
        (rg : String) (vse vpk : JSON),
      data[i]? = some (.obj kvs) →
      dget kvs "region" = some (.int ng) →
      dget kvs "seasonRating" = some (.int ns) →
      dget kvs "peakRating" = some (.int np) →
      dget kvs "rank" = some (.int nr) →
      0 ≤ (i : Int) + 1 + (ng - nr) →
      0 ≤ (i : Int) + 1 + (ns - nr) →
      0 ≤ (i : Int) + 1 + (np - nr) →
      data[((i : Int) + 1 + (ng - nr)).toNat]? = some (.str rg) →
      data[((i : Int) + 1 + (ns - nr)).toNat]? = some vse →
      data[((i : Int) + 1 + (np - nr)).toNat]? = some vpk →
      REGIONS.contains rg = true →
      isPyIntInstance vse = true →
      isPyIntInstance vpk = true →
      globalRow data i = .emit rg vse vpk) := by
  constructor
  · intro data i kvs np ns nr vpk vse hi hp hs hr htp hts hgp hgs hvp hvs
    have hsubp : pySub (JSON.int np) (JSON.int nr) = some (np - nr) := rfl
    have hsubs : pySub (JSON.int ns) (JSON.int nr) = some (ns - nr) := rfl
    have hip : pyIdx data ((i : Int) + 1 + (np - nr)) = some vpk := by
      rw [pyIdx_nonneg _ _ htp]; exact hgp
    have his : pyIdx data ((i : Int) + 1 + (ns - nr)) = some vse := by
      rw [pyIdx_nonneg _ _ hts]; exact hgs
    simp only [regionRow, hi, hp, hs, hr, hsubp, hsubs, hip, his, hvp, hvs,
      Bool.and_self, if_true]
  · intro data i kvs ng ns np nr rg vse vpk hi hg hs hp hr htg hts htp hgg hgs hgp hreg hvs hvp
    have hsubg : pySub (JSON.int ng) (JSON.int nr) = some (ng - nr) := rfl
    have hsubs : pySub (JSON.int ns) (JSON.int nr) = some (ns - nr) := rfl
    have hsubp : pySub (JSON.int np) (JSON.int nr) = some (np - nr) := rfl
    have hig : pyIdx data ((i : Int) + 1 + (ng - nr)) = some (JSON.str rg) := by
      rw [pyIdx_nonneg _ _ htg]; exact hgg
    have his : pyIdx data ((i : Int) + 1 + (ns - nr)) = some vse := by
      rw [pyIdx_nonneg _ _ hts]; exact hgs
    have hip : pyIdx data ((i : Int) + 1 + (np - nr)) = some vpk := by
      rw [pyIdx_nonneg _ _ htp]; exact hgp
    simp only [globalRow, hi, hg, hs, hp, hr, hsubg, hsubs, hsubp, hig, his, hip,
      hreg, hvs, hvp, Bool.and_self, if_true]

/-- Witness for `C1_offset_law` at concrete inputs: a regional header cell
with offsets 1 and 2 (targets 2 and 3), and the global header cell of the
spec's fixture. -/
theorem C1_offset_law_witness :
    regionRow
        [.obj [("peakRating", .int 1), ("seasonRating", .int 2), ("rank", .int 0)],
         .int 9, .int 1500, .int 1800] 0
      = .emit (.int 1800) (.int 1500)
    ∧ globalRow
        [.obj [("region", .int 0), ("seasonRating", .int 2), ("peakRating", .int 1), ("rank", .int 0)],
         .str "EU", .int 1500, .int 1800] 0
      = .emit "EU" (.int 1800) (.int 1500) :=
  ⟨C1_offset_law.1 _ 0 _ 1 2 0 (.int 1500) (.int 1800) rfl rfl rfl rfl
      (by decide) (by decide) rfl rfl rfl rfl,
   C1_offset_law.2 _ 0 _ 0 2 1 0 "EU" (.int 1800) (.int 1500) rfl rfl rfl rfl rfl
      (by decide) (by decide) (by decide) rfl rfl rfl rfl rfl rfl⟩

/-- C2 counterexample: on the spec's fixture cell array
`[{"region": 0, "seasonRating": 2, "peakRating": 1, "rank": 0}, "EU", 1500, 1800]`
the global decoder emits one record for region `"EU"` with
season = 1800 and peak = 1500 (the `seasonRating` offset 2 addresses index
3 and the `peakRating` offset 1 addresses index 2), not the claimed
`(season = 1500, peak = 1800)`. -/
theorem C2_counterexample :
    scrape_page_rows
        [.obj [("region", .int 0), ("seasonRating", .int 2), ("peakRating", .int 1), ("rank", .int 0)],
         .str "EU", .int 1500, .int 1800]
      = some [("EU", [(JSON.int 1800, JSON.int 1500)])]
    ∧ scrape_page_rows
        [.obj [("region", .int 0), ("seasonRating", .int 2), ("peakRating", .int 1), ("rank", .int 0)],
         .str "EU", .int 1500, .int 1800]
      ≠ some [("EU", [(JSON.int 1500, JSON.int 1800)])] := by
  refine ⟨rfl, ?_⟩
  rw [show scrape_page_rows
        [.obj [("region", .int 0), ("seasonRating", .int 2), ("peakRating", .int 1), ("rank", .int 0)],
         .str "EU", .int 1500, .int 1800]
      = some [("EU", [(JSON.int 1800, JSON.int 1500)])] from rfl]
  intro h
  have h2 := Option.some.inj h
  have h3 := List.head_eq_of_cons_eq h2
  have h4 := congrArg Prod.snd h3
  have h5 := List.head_eq_of_cons_eq h4
  have h6 := congrArg Prod.fst h5
  exact absurd (JSON.int.inj h6) (by decide)

/-- C2 (amended): running the global-variant decoder on the cell array
`[{"region": 0, "seasonRating": 2, "peakRating": 1, "rank": 0}, "EU", 1500, 1800]`
(the allow-set of the source contains `"EU"`) yields exactly one record,
equal to `(region = "EU", season = 1800, peak = 1500)` — the record tuple
the source stores is `(season, peak)` keyed by region. -/
theorem C2_decode_fixture :
    scrape_page_rows
        [.obj [("region", .int 0), ("seasonRating", .int 2), ("peakRating", .int 1), ("rank", .int 0)],
         .str "EU", .int 1500, .int 1800]
      = some [("EU", [(JSON.int 1800, JSON.int 1500)])] := rfl

/-- Unfolding equation of the regional scan: one loop iteration inspects
the cursor and in every non-raising case continues from exactly `i + 1`. -/
theorem regionScanFrom_eq (data : List JSON) (i : Nat) :
    regionScanFrom data i =
      if i < data.length then
        match regionRow data i with
        | .raiseTypeError => none
        | .emit season peak =>
          (regionScanFrom data (i + 1)).map (fun sp => (season :: sp.1, peak :: sp.2))
        | _ => regionScanFrom data (i + 1)
      else some ([], []) := by
  by_cases h : i < data.length
  · rw [if_pos h]
    have hk : data.length - i = (data.length - (i + 1)) + 1 := by omega
    rw [regionScanFrom, hk]
    simp only [regionScanGo, if_pos h]
    rfl
  · rw [if_neg h]
    have hk : data.length - i = 0 := by omega
    rw [regionScanFrom, hk]
    rfl

/-- On a cell array whose members pass `headerValuesOk`, no cursor position
of the regional decoder raises. -/
theorem regionRow_no_raise (data : List JSON) (hall : data.all headerValuesOk = true)
    (i : Nat) : regionRow data i ≠ .raiseTypeError := by
  cases hi : data[i]? with
  | none => simp [regionRow, hi]
  | some v =>
    have hmem : v ∈ data := List.get?_mem (by rw [List.get?_eq_getElem?]; exact hi)
    have hok : headerValuesOk v = true := List.all_eq_true.mp hall v hmem
    cases v with
    | obj kvs =>
      cases hp : dget kvs "peakRating" with
      | none => simp [regionRow, hi, hp]
      | some vp =>
        cases hs : dget kvs "seasonRating" with
        | none => simp [regionRow, hi, hp, hs]
        | some vs =>
          cases hr : dget kvs "rank" with
          | none => simp [regionRow, hi, hp, hs, hr]
          | some vr =>
            rw [headerValuesOk, hp, hs, hr] at hok
            simp only [Bool.and_eq_true, Option.isSome_iff_exists] at hok
            obtain ⟨⟨⟨x, hx⟩, y, hy⟩, z, hz⟩ := hok
            have hsub1 : pySub vp vr = some (x - z) := by rw [pySub, hx, hz]; rfl
            have hsub2 : pySub vs vr = some (y - z) := by rw [pySub, hy, hz]; rfl
            cases hidx1 : pyIdx data ((i : Int) + 1 + (x - z)) with
            | none => simp [regionRow, hi, hp, hs, hr, hsub1, hidx1]
            | some peak =>
              cases hidx2 : pyIdx data ((i : Int) + 1 + (y - z)) with
              | none => simp [regionRow, hi, hp, hs, hr, hsub1, hsub2, hidx1, hidx2]
              | some season =>
                simp only [regionRow, hi, hp, hs, hr, hsub1, hsub2, hidx1, hidx2]
                split <;> simp
    | null => simp [regionRow, hi]
    | bool b => simp [regionRow, hi]
    | int n => simp [regionRow, hi]
    | str s => simp [regionRow, hi]
    | arr xs => simp [regionRow, hi]

/-- A regional scan over a non-raising cell array returns a value. -/
theorem regionScanGo_isSome (data : List JSON)
    (h : ∀ i, regionRow data i ≠ .raiseTypeError) :
    ∀ fuel i, (regionScanGo data fuel i).isSome = true := by
  intro fuel
  induction fuel with
  | zero => intro i; rfl
  | succ f ih =>
    intro i
    rw [regionScanGo]
    by_cases hlt : i < data.length
    · rw [if_pos hlt]
      cases hrow : regionRow data i with
      | raiseTypeError => exact absurd hrow (h i)
      | emit s p => rw [Option.isSome_map']; exact ih (i + 1)
      | noHeader => exact ih (i + 1)
      | skipRow => exact ih (i + 1)
    · rw [if_neg hlt]
      rfl

/-- C4 counterexample: the cell array
`[{"peakRating": "a", "seasonRating": "b", "rank": "c"}]` contains a map
with all wanted fields plus the baseline field — a header cell in the
claim's sense — yet the decoder does not survive it: `"a" - "c"` raises a
`TypeError`, which the source's `except IndexError` does not catch, so the
exception escapes and the whole scan aborts (`none`); the second conjunct
records that all three wanted keys are present. -/
theorem C4_counterexample :
    regionScan [.obj [("peakRating", .str "a"), ("seasonRating", .str "b"), ("rank", .str "c")]]
      = none
    ∧ (dget [("peakRating", JSON.str "a"), ("seasonRating", JSON.str "b"), ("rank", JSON.str "c")]
        "peakRating").isSome = true
    ∧ (dget [("peakRating", JSON.str "a"), ("seasonRating", JSON.str "b"), ("rank", JSON.str "c")]
        "seasonRating").isSome = true
    ∧ (dget [("peakRating", JSON.str "a"), ("seasonRating", JSON.str "b"), ("rank", JSON.str "c")]
        "rank").isSome = true := ⟨rfl, rfl, rfl, rfl⟩

/-- C4 (amended): restricted to cell arrays whose key-complete maps carry
integer (or boolean) values at the wanted and baseline fields — the header
cells of the spec's data model — the decoder is robust: (1) the whole scan
returns without an exception; (2) after an emitting header at cursor `h`
the scan continues from exactly `h + 1`; (3) after a non-header element or
a skipped row (out-of-range target or failed validation) the scan also
continues from exactly `h + 1` with no record emitted; (4) a header cell
whose computed `peakRating` target index falls outside Python's index range
`[-n, n)` produces `skipRow` — no record, no exception.  Without the
restriction the claim fails, because a key-complete map with non-numeric
values raises an uncaught `TypeError` (see the counterexample). -/
theorem C4_decoder_robustness :
    (∀ data : List JSON, data.all headerValuesOk = true →
      (regionScan data).isSome = true)
    ∧ (∀ (data : List JSON) (i : Nat) (season peak : JSON),
        regionRow data i = .emit season peak →
        regionScanFrom data i
          = (regionScanFrom data (i + 1)).map (fun sp => (season :: sp.1, peak :: sp.2)))
    ∧ (∀ (data : List JSON) (i : Nat),
        (regionRow data i = .noHeader ∨ regionRow data i = .skipRow) →
        regionScanFrom data i = regionScanFrom data (i + 1))
    ∧ (∀ (data : List JSON) (i : Nat) (kvs : List (String × JSON)) (np ns nr : Int),
        data[i]? = some (.obj kvs) →
        dget kvs "peakRating" = some (.int np) →
        dget kvs "seasonRating" = some (.int ns) →
        dget kvs "rank" = some (.int nr) →
        ((data.length : Int) ≤ (i : Int) + 1 + (np - nr)
          ∨ (i : Int) + 1 + (np - nr) < -(data.length : Int)) →
        regionRow data i = .skipRow) := by
  refine ⟨?_, ?_, ?_, ?_⟩
  · intro data hall
    exact regionScanGo_isSome data (regionRow_no_raise data hall) (data.length - 0) 0
  · intro data i season peak hrow
    have hlt : i < data.length := by
      by_contra hge
      have hnone : data[i]? = none := List.getElem?_eq_none_iff.mpr (by omega)
      rw [regionRow, hnone] at hrow
      exact RegionRowOutcome.noConfusion hrow
    rw [regionScanFrom_eq, if_pos hlt, hrow]
  · intro data i hrow
    by_cases hlt : i < data.length
    · rw [regionScanFrom_eq, if_pos hlt]
      rcases hrow with h | h
      · rw [h]
      · rw [h]
    · rw [regionScanFrom_eq, if_neg hlt, regionScanFrom_eq,
        if_neg (by intro h; exact hlt (by omega))]
  · intro data i kvs np ns nr hi hp hs hr hoob
    have hsub : pySub (JSON.int np) (JSON.int nr) = some (np - nr) := rfl
    have hidx : pyIdx data ((i : Int) + 1 + (np - nr)) = none := pyIdx_oob data _ hoob
    simp only [regionRow, hi, hp, hs, hr, hsub, hidx]

/-- Witness for `C4_decoder_robustness`: a concrete cell array with one
valid header (emitting from cursor 0), a non-header scalar (cursor 1), and
a second array whose header's target index 101 exceeds the bounds. -/
theorem C4_decoder_robustness_witness :
    (regionScan [.obj [("peakRating", .int 1), ("seasonRating", .int 2), ("rank", .int 0)],
        .int 9, .int 1500, .int 1800]).isSome = true
    ∧ regionScanFrom [.obj [("peakRating", .int 1), ("seasonRating", .int 2), ("rank", .int 0)],
        .int 9, .int 1500, .int 1800] 0
      = (regionScanFrom [.obj [("peakRating", .int 1), ("seasonRating", .int 2), ("rank", .int 0)],
          .int 9, .int 1500, .int 1800] 1).map
          (fun sp => (JSON.int 1800 :: sp.1, JSON.int 1500 :: sp.2))
    ∧ regionScanFrom [.obj [("peakRating", .int 1), ("seasonRating", .int 2), ("rank", .int 0)],
        .int 9, .int 1500, .int 1800] 1
      = regionScanFrom [.obj [("peakRating", .int 1), ("seasonRating", .int 2), ("rank", .int 0)],
          .int 9, .int 1500, .int 1800] 2
    ∧ regionRow [.obj [("peakRating", .int 100), ("seasonRating", .int 2), ("rank", .int 0)]] 0
      = .skipRow :=
  ⟨C4_decoder_robustness.1 _ rfl,
   C4_decoder_robustness.2.1 _ 0 (.int 1800) (.int 1500) rfl,
   C4_decoder_robustness.2.2.1 _ 1 (Or.inl rfl),
   C4_decoder_robustness.2.2.2 _ 0 _ 100 2 0 rfl rfl rfl rfl (Or.inl (by decide))⟩

/-- C10 (implicit negative-offset wrap law): for a header cell at cursor
`i` of an `n`-element cell array, a computed target index
`t = i + 1 + (header[F] - header["rank"])` with `-n ≤ t < 0` is *not* a
decode failure: Python list indexing wraps it to position `n + t`, whose
element (validation permitting) is emitted in the record — first conjunct,
shown for the `peakRating` field.  Only `t ≥ n` or `t < -n` raise the
caught `IndexError` and skip the row: second conjunct for the `peakRating`
target, third conjunct for an in-range `peakRating` but out-of-range
`seasonRating` target. -/
theorem C10_negative_index_wrap :
    (∀ (data : List JSON) (i : Nat) (kvs : List (String × JSON)) (np ns nr : Int)
        (vpk vse : JSON),
      data[i]? = some (.obj kvs) →
      dget kvs "peakRating" = some (.int np) →
      dget kvs "seasonRating" = some (.int ns) →
      dget kvs "rank" = some (.int nr) →
      (i : Int) + 1 + (np - nr) < 0 →
      0 ≤ (data.length : Int) + ((i : Int) + 1 + (np - nr)) →
      data[((data.length : Int) + ((i : Int) + 1 + (np - nr))).toNat]? = some vpk →
      pyIdx data ((i : Int) + 1 + (ns - nr)) = some vse →
      isPyIntInstance vpk = true →
      isPyIntInstance vse = true →
      regionRow data i = .emit vse vpk)
    ∧ (∀ (data : List JSON) (i : Nat) (kvs : List (String × JSON)) (np ns nr : Int),
      data[i]? = some (.obj kvs) →
      dget kvs "peakRating" = some (.int np) →
      dget kvs "seasonRating" = some (.int ns) →
      dget kvs "rank" = some (.int nr) →
      ((data.length : Int) ≤ (i : Int) + 1 + (np - nr)
        ∨ (i : Int) + 1 + (np - nr) < -(data.length : Int)) →
      regionRow data i = .skipRow)
    ∧ (∀ (data : List JSON) (i : Nat) (kvs : List (String × JSON)) (np ns nr : Int)
        (vpk : JSON),
      data[i]? = some (.obj kvs) →
      dget kvs "peakRating" = some (.int np) →
      dget kvs "seasonRating" = some (.int ns) →
      dget kvs "rank" = some (.int nr) →
      pyIdx data ((i : Int) + 1 + (np - nr)) = some vpk →
      ((data.length : Int) ≤ (i : Int) + 1 + (ns - nr)
        ∨ (i : Int) + 1 + (ns - nr) < -(data.length : Int)) →
      regionRow data i = .skipRow) := by
  refine ⟨?_, ?_, ?_⟩
  · intro data i kvs np ns nr vpk vse hi hp hs hr hneg hwrap hgp his hvp hvs
    have hsubp : pySub (JSON.int np) (JSON.int nr) = some (np - nr) := rfl
    have hsubs : pySub (JSON.int ns) (JSON.int nr) = some (ns - nr) := rfl
    have hip : pyIdx data ((i : Int) + 1 + (np - nr)) = some vpk := by
      rw [pyIdx_neg_wrap _ _ hneg hwrap]; exact hgp
    simp only [regionRow, hi, hp, hs, hr, hsubp, hsubs, hip, his, hvp, hvs,
      Bool.and_self, if_true]
  · intro data i kvs np ns nr hi hp hs hr hoob
    have hsub : pySub (JSON.int np) (JSON.int nr) = some (np - nr) := rfl
    have hidx : pyIdx data ((i : Int) + 1 + (np - nr)) = none := pyIdx_oob data _ hoob
    simp only [regionRow, hi, hp, hs, hr, hsub, hidx]
  · intro data i kvs np ns nr vpk hi hp hs hr hip hoob
    have hsubp : pySub (JSON.int np) (JSON.int nr) = some (np - nr) := rfl
    have hsubs : pySub (JSON.int ns) (JSON.int nr) = some (ns - nr) := rfl
    have hidx : pyIdx data ((i : Int) + 1 + (ns - nr)) = none := pyIdx_oob data _ hoob
    simp only [regionRow, hi, hp, hs, hr, hsubp, hsubs, hip, hidx]

/-- Witness for `C10_negative_index_wrap`: on
`[{"peakRating": 1, "seasonRating": 2, "rank": 5}, 11, 22, 33]` the peak
target is `0 + 1 + (1 - 5) = -3`, which wraps to position `4 + (-3) = 1`
holding `11`, and the season target `-2` wraps to position 2 holding `22`;
the two skip conjuncts are instantiated at arrays whose targets are `-9`
and `101`. -/
theorem C10_negative_index_wrap_witness :
    regionRow [.obj [("peakRating", .int 1), ("seasonRating", .int 2), ("rank", .int 5)],
        .int 11, .int 22, .int 33] 0
      = .emit (.int 22) (.int 11)
    ∧ regionRow [.obj [("peakRating", .int (-10)), ("seasonRating", .int 0), ("rank", .int 0)]] 0
      = .skipRow
    ∧ regionRow [.obj [("peakRating", .int 0), ("seasonRating", .int 100), ("rank", .int 0)],
        .int 7] 0
      = .skipRow :=
  ⟨C10_negative_index_wrap.1 _ 0 _ 1 2 5 (.int 11) (.int 22) rfl rfl rfl rfl
      (by decide) (by decide) rfl rfl rfl rfl,
   C10_negative_index_wrap.2.1 _ 0 _ (-10) 0 0 rfl rfl rfl rfl (Or.inr (by decide)),
   C10_negative_index_wrap.2.2 _ 0 _ 0 100 0 (.int 7) rfl rfl rfl rfl rfl
      (Or.inl (by decide))⟩

/-- Inversion of a successful Python subtraction. -/
theorem pySub_some_inv (a b : JSON) (o : Int) (h : pySub a b = some o) :
    ∃ x y, pyAsInt a = some x ∧ pyAsInt b = some y ∧ o = x - y := by
  cases hx : pyAsInt a with
  | none => rw [pySub, hx] at h; simp at h
  | some x =>
    cases hy : pyAsInt b with
    | none => rw [pySub, hx, hy] at h; simp at h
    | some y =>
      rw [pySub, hx, hy] at h
      simp only [Option.bind_eq_bind, Option.some_bind, Option.pure_def,
        Option.some.injEq] at h
      exact ⟨x, y, rfl, rfl, h.symm⟩

/-- Full inversion of an emission of the global decoder: a record is
emitted at cursor `i` only when `data[i]` is a map carrying all four wanted
keys with subtractable values, all three computed target indices resolve
(possibly wrapping), the region value is a string in the allow-set, and
both ratings pass Python's integer check. -/
theorem globalRow_emit_inv (data : List JSON) (i : Nat) (rg : String) (season peak : JSON)
    (h : globalRow data i = .emit rg season peak) :
    ∃ (kvs : List (String × JSON)) (vg vs vp vr : JSON) (ng ns np nr : Int),
      data[i]? = some (.obj kvs)
      ∧ dget kvs "region" = some vg ∧ dget kvs "seasonRating" = some vs
      ∧ dget kvs "peakRating" = some vp ∧ dget kvs "rank" = some vr
      ∧ pyAsInt vg = some ng ∧ pyAsInt vs = some ns
      ∧ pyAsInt vp = some np ∧ pyAsInt vr = some nr
      ∧ pyIdx data ((i : Int) + 1 + (ng - nr)) = some (.str rg)
      ∧ pyIdx data ((i : Int) + 1 + (ns - nr)) = some season
      ∧ pyIdx data ((i : Int) + 1 + (np - nr)) = some peak
      ∧ REGIONS.contains rg = true
      ∧ isPyIntInstance season = true ∧ isPyIntInstance peak = true := by
  cases hi : data[i]? with
  | none => simp [globalRow, hi] at h
  | some v =>
    cases v with
    | obj kvs =>
      cases hg : dget kvs "region" with
      | none => simp [globalRow, hi, hg] at h
      | some vg =>
        cases hs2 : dget kvs "seasonRating" with
        | none => simp [globalRow, hi, hg, hs2] at h
        | some vs =>
          cases hp2 : dget kvs "peakRating" with
          | none => simp [globalRow, hi, hg, hs2, hp2] at h
          | some vp =>
            cases hr2 : dget kvs "rank" with
            | none => simp [globalRow, hi, hg, hs2, hp2, hr2] at h
            | some vr =>
              cases hsubg : pySub vg vr with
              | none => simp [globalRow, hi, hg, hs2, hp2, hr2, hsubg] at h
              | some offg =>
                cases hsubs : pySub vs vr with
                | none => simp [globalRow, hi, hg, hs2, hp2, hr2, hsubg, hsubs] at h
                | some offs =>
                  cases hsubp : pySub vp vr with
                  | none => simp [globalRow, hi, hg, hs2, hp2, hr2, hsubg, hsubs, hsubp] at h
                  | some offp =>
                    cases hidxg : pyIdx data ((i : Int) + 1 + offg) with
                    | none =>
                      simp [globalRow, hi, hg, hs2, hp2, hr2, hsubg, hsubs, hsubp, hidxg] at h
                    | some region =>
                      cases hidxs : pyIdx data ((i : Int) + 1 + offs) with
                      | none =>
                        simp [globalRow, hi, hg, hs2, hp2, hr2, hsubg, hsubs, hsubp,
                          hidxg, hidxs] at h
                      | some season2 =>
                        cases hidxp : pyIdx data ((i : Int) + 1 + offp) with
                        | none =>
                          simp [globalRow, hi, hg, hs2, hp2, hr2, hsubg, hsubs, hsubp,
                            hidxg, hidxs, hidxp] at h
                        | some peak2 =>
                          simp only [globalRow, hi, hg, hs2, hp2, hr2, hsubg, hsubs, hsubp,
                            hidxg, hidxs, hidxp] at h
                          obtain ⟨ng, nr1, hvg, hvr1, hoffg⟩ := pySub_some_inv vg vr offg hsubg
                          obtain ⟨ns, nr2, hvs, hvr2, hoffs⟩ := pySub_some_inv vs vr offs hsubs
                          obtain ⟨np, nr3, hvp, hvr3, hoffp⟩ := pySub_some_inv vp vr offp hsubp
                          have e2 : nr2 = nr1 :=
                            (Option.some.inj (hvr1.symm.trans hvr2)).symm
                          have e3 : nr3 = nr1 :=
                            (Option.some.inj (hvr1.symm.trans hvr3)).symm
                          rw [e2] at hoffs
                          rw [e3] at hoffp
                          cases region with
                          | str rg2 =>
                            simp only [] at h
                            split at h
                            next hcond =>
                              injection h with h1 h2 h3
                              subst h1; subst h2; subst h3
                              simp only [Bool.and_eq_true] at hcond
                              refine ⟨kvs, vg, vs, vp, vr, ng, ns, np, nr1, rfl, hg, hs2,
                                hp2, hr2, hvg, hvs, hvp, hvr1, ?_, ?_, ?_,
                                hcond.1.1, hcond.1.2, hcond.2⟩
                              · rw [← hoffg]; exact hidxg
                              · rw [← hoffs]; exact hidxs
                              · rw [← hoffp]; exact hidxp
                            next hcond => exact absurd h (by simp)
                          | null => simp at h
                          | bool b => simp at h
                          | int n => simp at h
                          | arr xs => simp at h
                          | obj kv2 => simp at h
    | null => simp [globalRow, hi] at h
    | bool b => simp [globalRow, hi] at h
    | int n => simp [globalRow, hi] at h
    | str s => simp [globalRow, hi] at h
    | arr xs => simp [globalRow, hi] at h

/-- Inversion of an emission of the regional decoder: a record is emitted
at cursor `i` only when `data[i]` is a key-complete map with subtractable
values, both target indices resolve, and both resolved values pass Python's
integer check. -/
theorem regionRow_emit_inv (data : List JSON) (i : Nat) (season peak : JSON)
    (h : regionRow data i = .emit season peak) :
    ∃ (kvs : List (String × JSON)) (vp vs vr : JSON) (np ns nr : Int),
      data[i]? = some (.obj kvs)
      ∧ dget kvs "peakRating" = some vp ∧ dget kvs "seasonRating" = some vs
      ∧ dget kvs "rank" = some vr
      ∧ pyAsInt vp = some np ∧ pyAsInt vs = some ns ∧ pyAsInt vr = some nr
      ∧ pyIdx data ((i : Int) + 1 + (np - nr)) = some peak
      ∧ pyIdx data ((i : Int) + 1 + (ns - nr)) = some season
      ∧ isPyIntInstance peak = true ∧ isPyIntInstance season = true := by
  cases hi : data[i]? with
  | none => simp [regionRow, hi] at h
  | some v =>
    cases v with
    | obj kvs =>
      cases hp2 : dget kvs "peakRating" with
      | none => simp [regionRow, hi, hp2] at h
      | some vp =>
        cases hs2 : dget kvs "seasonRating" with
        | none => simp [regionRow, hi, hp2, hs2] at h
        | some vs =>
          cases hr2 : dget kvs "rank" with
          | none => simp [regionRow, hi, hp2, hs2, hr2] at h
          | some vr =>
            cases hsubp : pySub vp vr with
            | none => simp [regionRow, hi, hp2, hs2, hr2, hsubp] at h
            | some offp =>
              cases hidxp : pyIdx data ((i : Int) + 1 + offp) with
              | none => simp [regionRow, hi, hp2, hs2, hr2, hsubp, hidxp] at h
              | some peak2 =>
                cases hsubs : pySub vs vr with
                | none => simp [regionRow, hi, hp2, hs2, hr2, hsubp, hidxp, hsubs] at h
                | some offs =>
                  cases hidxs : pyIdx data ((i : Int) + 1 + offs) with
                  | none =>
                    simp [regionRow, hi, hp2, hs2, hr2, hsubp, hidxp, hsubs, hidxs] at h
                  | some season2 =>
                    simp only [regionRow, hi, hp2, hs2, hr2, hsubp, hidxp, hsubs, hidxs] at h
                    obtain ⟨np, nr1, hvp, hvr1, hoffp⟩ := pySub_some_inv vp vr offp hsubp
                    obtain ⟨ns, nr2, hvs, hvr2, hoffs⟩ := pySub_some_inv vs vr offs hsubs
                    have e2 : nr2 = nr1 :=
                      (Option.some.inj (hvr1.symm.trans hvr2)).symm
                    rw [e2] at hoffs
                    split at h
                    next hcond =>
                      injection h with h1 h2
                      subst h1; subst h2
                      simp only [Bool.and_eq_true] at hcond
                      refine ⟨kvs, vp, vs, vr, np, ns, nr1, rfl, hp2, hs2, hr2,
                        hvp, hvs, hvr1, ?_, ?_, hcond.1, hcond.2⟩
                      · rw [← hoffp]; exact hidxp
                      · rw [← hoffs]; exact hidxs
                    next hcond => exact absurd h (by simp)
    | null => simp [regionRow, hi] at h
    | bool b => simp [regionRow, hi] at h
    | int n => simp [regionRow, hi] at h
    | str s => simp [regionRow, hi] at h
    | arr xs => simp [regionRow, hi] at h

/-- A resolved global row whose values fail the validation conjunction
emits nothing: the cursor position yields `skipRow`. -/
theorem globalRow_validation_fails (data : List JSON) (i : Nat)
    (kvs : List (String × JSON)) (vg vs vp vr : JSON) (offg offs offp : Int)
    (region season peak : JSON)
    (hi : data[i]? = some (.obj kvs))
    (hg : dget kvs "region" = some vg)
    (hs2 : dget kvs "seasonRating" = some vs)
    (hp2 : dget kvs "peakRating" = some vp)
    (hr2 : dget kvs "rank" = some vr)
    (hsubg : pySub vg vr = some offg)
    (hsubs : pySub vs vr = some offs)
    (hsubp : pySub vp vr = some offp)
    (hidxg : pyIdx data ((i : Int) + 1 + offg) = some region)
    (hidxs : pyIdx data ((i : Int) + 1 + offs) = some season)
    (hidxp : pyIdx data ((i : Int) + 1 + offp) = some peak)
    (hval : globalValidation region season peak = false) :
    globalRow data i = .skipRow := by
  simp only [globalRow, hi, hg, hs2, hp2, hr2, hsubg, hsubs, hsubp, hidxg, hidxs, hidxp]
  cases region with
  | str rg =>
    rw [globalValidation] at hval
    simp only [hval, Bool.false_eq_true, if_false]
  | null => rfl
  | bool b => rfl
  | int n => rfl
  | arr xs => rfl
  | obj kv2 => rfl

/-- C9 counterexample: on the cell array
`[{"region": 0, "seasonRating": 1, "peakRating": 2, "rank": 0}, "EU", true, 1700]`
the global decoder emits a record whose season value is the *boolean*
`true` — not an integer (third conjunct), yet accepted because CPython's
`isinstance(True, int)` holds (second conjunct) — refuting the claim that
any value of a type other than integer at a target index yields no
record. -/
theorem C9_counterexample :
    scrape_page_rows
        [.obj [("region", .int 0), ("seasonRating", .int 1), ("peakRating", .int 2), ("rank", .int 0)],
         .str "EU", .bool true, .int 1700]
      = some [("EU", [(JSON.bool true, JSON.int 1700)])]
    ∧ isPyIntInstance (JSON.bool true) = true
    ∧ isIntValue (JSON.bool true) = false := ⟨rfl, rfl, rfl⟩

/-- C9 (amended): a record is emitted only if every required field exists
at its computed offset and passes the source's type validation — the
region value is a string belonging to the fixed allow-set, and both rating
values satisfy Python's `isinstance(·, int)`, *which booleans also satisfy*
(`bool` is a subclass of `int`); any value failing that weaker check at a
target index yields no record for the row.  First conjunct: full inversion
of a global-decoder emission.  Second conjunct: resolved rows failing the
validation conjunction are skipped.  Third conjunct: the regional decoder's
two rating values likewise pass the `isinstance` check. -/
theorem C9_record_validity_gate :
    (∀ (data : List JSON) (i : Nat) (rg : String) (season peak : JSON),
      globalRow data i = .emit rg season peak →
      ∃ (kvs : List (String × JSON)) (vg vs vp vr : JSON) (ng ns np nr : Int),
        data[i]? = some (.obj kvs)
        ∧ dget kvs "region" = some vg ∧ dget kvs "seasonRating" = some vs
        ∧ dget kvs "peakRating" = some vp ∧ dget kvs "rank" = some vr
        ∧ pyAsInt vg = some ng ∧ pyAsInt vs = some ns
        ∧ pyAsInt vp = some np ∧ pyAsInt vr = some nr
        ∧ pyIdx data ((i : Int) + 1 + (ng - nr)) = some (.str rg)
        ∧ pyIdx data ((i : Int) + 1 + (ns - nr)) = some season
        ∧ pyIdx data ((i : Int) + 1 + (np - nr)) = some peak
        ∧ REGIONS.contains rg = true
        ∧ isPyIntInstance season = true ∧ isPyIntInstance peak = true)
    ∧ (∀ (data : List JSON) (i : Nat) (kvs : List (String × JSON)) (vg vs vp vr : JSON)
        (offg offs offp : Int) (region season peak : JSON),
        data[i]? = some (.obj kvs) →
        dget kvs "region" = some vg →
        dget kvs "seasonRating" = some vs →
        dget kvs "peakRating" = some vp →
        dget kvs "rank" = some vr →
        pySub vg vr = some offg →
        pySub vs vr = some offs →
        pySub vp vr = some offp →
        pyIdx data ((i : Int) + 1 + offg) = some region →
        pyIdx data ((i : Int) + 1 + offs) = some season →
        pyIdx data ((i : Int) + 1 + offp) = some peak →
        globalValidation region season peak = false →
        globalRow data i = .skipRow)
    ∧ (∀ (data : List JSON) (i : Nat) (season peak : JSON),
        regionRow data i = .emit season peak →
        isPyIntInstance season = true ∧ isPyIntInstance peak = true) := by
  refine ⟨?_, ?_, ?_⟩
  · intro data i rg season peak h
    exact globalRow_emit_inv data i rg season peak h
  · intro data i kvs vg vs vp vr offg offs offp region season peak
      hi hg hs2 hp2 hr2 hsubg hsubs hsubp hidxg hidxs hidxp hval
    exact globalRow_validation_fails data i kvs vg vs vp vr offg offs offp
      region season peak hi hg hs2 hp2 hr2 hsubg hsubs hsubp hidxg hidxs hidxp hval
  · intro data i season peak h
    obtain ⟨_, _, _, _, _, _, _, _, _, _, _, _, _, _, _, _, hpk, hse⟩ :=
      regionRow_emit_inv data i season peak h
    exact ⟨hse, hpk⟩

/-- Witness for `C9_record_validity_gate`: the emission inversion applied
to the fixture array, the skip behaviour on the same array with the region
string replaced by `"XX"` (outside the allow-set), and the regional
inversion on a regional fixture. -/
theorem C9_record_validity_gate_witness :
    (∃ (kvs : List (String × JSON)) (vg vs vp vr : JSON) (ng ns np nr : Int),
      ([.obj [("region", .int 0), ("seasonRating", .int 2), ("peakRating", .int 1), ("rank", .int 0)],
        .str "EU", .int 1500, .int 1800] : List JSON)[(0 : Nat)]? = some (.obj kvs)
      ∧ dget kvs "region" = some vg ∧ dget kvs "seasonRating" = some vs
      ∧ dget kvs "peakRating" = some vp ∧ dget kvs "rank" = some vr
      ∧ pyAsInt vg = some ng ∧ pyAsInt vs = some ns
      ∧ pyAsInt vp = some np ∧ pyAsInt vr = some nr
      ∧ pyIdx ([.obj [("region", .int 0), ("seasonRating", .int 2), ("peakRating", .int 1), ("rank", .int 0)],
          .str "EU", .int 1500, .int 1800] : List JSON) (((0 : Nat) : Int) + 1 + (ng - nr))
        = some (.str "EU")
      ∧ pyIdx ([.obj [("region", .int 0), ("seasonRating", .int 2), ("peakRating", .int 1), ("rank", .int 0)],
          .str "EU", .int 1500, .int 1800] : List JSON) (((0 : Nat) : Int) + 1 + (ns - nr))
        = some (.int 1800)
      ∧ pyIdx ([.obj [("region", .int 0), ("seasonRating", .int 2), ("peakRating", .int 1), ("rank", .int 0)],
          .str "EU", .int 1500, .int 1800] : List JSON) (((0 : Nat) : Int) + 1 + (np - nr))
        = some (.int 1500)
      ∧ REGIONS.contains "EU" = true
      ∧ isPyIntInstance (JSON.int 1800) = true ∧ isPyIntInstance (JSON.int 1500) = true)
    ∧ globalRow [.obj [("region", .int 0), ("seasonRating", .int 2), ("peakRating", .int 1), ("rank", .int 0)],
        .str "XX", .int 1500, .int 1800] 0 = .skipRow
    ∧ (isPyIntInstance (JSON.int 1800) = true ∧ isPyIntInstance (JSON.int 1500) = true) :=
  ⟨C9_record_validity_gate.1
      [.obj [("region", .int 0), ("seasonRating", .int 2), ("peakRating", .int 1), ("rank", .int 0)],
       .str "EU", .int 1500, .int 1800] 0 "EU" (.int 1800) (.int 1500) rfl,
   C9_record_validity_gate.2.1
      [.obj [("region", .int 0), ("seasonRating", .int 2), ("peakRating", .int 1), ("rank", .int 0)],
       .str "XX", .int 1500, .int 1800] 0
      [("region", .int 0), ("seasonRating", .int 2), ("peakRating", .int 1), ("rank", .int 0)]
      (.int 0) (.int 2) (.int 1) (.int 0) 0 2 1
      (.str "XX") (.int 1800) (.int 1500) rfl rfl rfl rfl rfl rfl rfl rfl rfl rfl rfl rfl,
   C9_record_validity_gate.2.2
      [.obj [("peakRating", .int 1), ("seasonRating", .int 2), ("rank", .int 0)],
       .int 9, .int 1500, .int 1800] 0 (.int 1800) (.int 1500) rfl⟩

/-- C8 counterexample: two fetch outcomes on which the page pipeline
*raises* instead of returning an empty result.  First conjunct: an HTTP 200
whose body is not valid JSON — `json.loads(resp.text)` raises
`json.JSONDecodeError`, and no handler catches it (`none`).  Second
conjunct: an HTTP 200 whose JSON body is well-formed and whose payload is
found, but whose cell array contains a key-complete map with string values,
so the decoder raises an uncaught `TypeError` that escapes `get_one_page`. -/
theorem C8_counterexample :
    get_one_page (.resp 200 none) = none
    ∧ get_one_page (.resp 200 (some (.obj [("type", .str "data"),
        ("data", .arr [.obj [("peakRating", .str "a"), ("seasonRating", .str "b"),
          ("rank", .str "c")]])])))
      = none := ⟨rfl, rfl⟩

/-- C8 (amended): the fetch pipeline contains network-level and
payload-shape failures — a request exception or timeout yields the empty
result, any non-200 status yields the empty result, and a 200 whose parsed
body holds no recognisable payload yields the empty result; moreover on any
located cell array whose key-complete maps carry numeric values the decode
completes without an exception.  However the containment is not total: a
200 response whose body fails JSON parsing, or whose cell array holds a
key-complete map with non-numeric values, raises an uncaught exception
(see the counterexample). -/
theorem C8_fetch_failure_containment :
    get_one_page .netError = some ([], [])
    ∧ (∀ (status : Nat) (body : Option JSON),
        status ≠ 200 → get_one_page (.resp status body) = some ([], []))
    ∧ (∀ root : JSON, find_data_array root = [] →
        get_one_page (.resp 200 (some root)) = some ([], []))
    ∧ (∀ root : JSON, (find_data_array root).all headerValuesOk = true →
        (get_one_page (.resp 200 (some root))).isSome = true) := by
  refine ⟨rfl, ?_, ?_, ?_⟩
  · intro status body h
    simp only [get_one_page, if_pos h]
  · intro root h
    simp only [get_one_page, ne_eq, not_true_eq_false, if_false, h,
      List.isEmpty_nil, if_true]
  · intro root hall
    simp only [get_one_page, ne_eq, not_true_eq_false, if_false]
    cases hdat : (find_data_array root).isEmpty with
    | true => simp
    | false =>
      simp only [Bool.false_eq_true, if_false]
      exact regionScanGo_isSome (find_data_array root)
        (regionRow_no_raise (find_data_array root) hall) _ 0

/-- Witness for `C8_fetch_failure_containment`: a 404, a 200 with a JSON
body containing no payload, and a 200 with a one-row payload. -/
theorem C8_fetch_failure_containment_witness :
    get_one_page (.resp 404 (some (.str "not found"))) = some ([], [])
    ∧ get_one_page (.resp 200 (some (.obj [("hello", .int 3)]))) = some ([], [])
    ∧ (get_one_page (.resp 200 (some (.obj [("type", .str "data"),
        ("data", .arr [.obj [("peakRating", .int 1), ("seasonRating", .int 2),
          ("rank", .int 0)], .int 9, .int 1500, .int 1800])])))).isSome = true :=
  ⟨C8_fetch_failure_containment.2.1 404 (some (.str "not found")) (by decide),
   C8_fetch_failure_containment.2.2.1 (.obj [("hello", .int 3)]) rfl,
   C8_fetch_failure_containment.2.2.2 (.obj [("type", .str "data"),
      ("data", .arr [.obj [("peakRating", .int 1), ("seasonRating", .int 2),
        ("rank", .int 0)], .int 9, .int 1500, .int 1800])]) rfl⟩

/-- Reindexing a mapped range after peeling one page off the front. -/
theorem range_map_shift {α : Type} (g : Nat → α) (p k : Nat) :
    g p :: (List.range k).map (fun j => g (p + 1 + j))
      = (List.range (k + 1)).map (fun j => g (p + j)) := by
  rw [List.range_succ_eq_map, List.map_cons, List.map_map]
  have h0 : p + 0 = p := Nat.add_zero p
  rw [h0]
  congr 1
  apply List.map_congr_left
  intro j _
  simp only [Function.comp_apply]
  have h1 : p + 1 + j = p + (j + 1) := by omega
  rw [h1]

/-- A run of the regional harvest loop under a fetch that always returns
zero rows: from a state with `k` more empties allowed before the threshold,
exactly `k` further iterations happen (fuel permitting), each appending its
page to the failed log, never touching the checkpoint or the bucket
files. -/
theorem runLoop_empty (fetch : Nat → List JSON × List JSON)
    (hfetch : ∀ p, fetch p = ([], [])) :
    ∀ (k fuel : Nat) (s : HState),
      s.consecutiveEmpty + k = STOP_AFTER → k ≤ fuel →
      runLoop fetch fuel s
        = ({ page := s.page + k, consecutiveEmpty := STOP_AFTER,
             failLog := s.failLog ++ (List.range k).map (fun j => s.page + j),
             seasonsFile := s.seasonsFile, peaksFile := s.peaksFile,
             checkpoint := s.checkpoint, fetchCount := s.fetchCount + k },
           (List.range k).map (fun j => REv.appendFail (s.page + j))) := by
  intro k
  induction k with
  | zero =>
    intro fuel s hc _hk
    have hstop : ¬ s.consecutiveEmpty < STOP_AFTER := by omega
    have hce : STOP_AFTER = s.consecutiveEmpty := by omega
    cases fuel with
    | zero =>
      rw [runLoop]
      simp only [List.range_zero, List.map_nil, List.append_nil, Nat.add_zero]
      rw [hce]
    | succ f =>
      rw [runLoop, if_neg hstop]
      simp only [List.range_zero, List.map_nil, List.append_nil, Nat.add_zero]
      rw [hce]
  | succ k ih =>
    intro fuel s hc hk
    cases fuel with
    | zero => omega
    | succ f =>
      have hrun : s.consecutiveEmpty < STOP_AFTER := by omega
      have hemp : (fetch s.page).2.isEmpty = true := by rw [hfetch]; rfl
      have hstep : loopStep fetch s
          = { page := s.page + 1, consecutiveEmpty := s.consecutiveEmpty + 1,
              failLog := s.failLog ++ [s.page], seasonsFile := s.seasonsFile,
              peaksFile := s.peaksFile, checkpoint := s.checkpoint,
              fetchCount := s.fetchCount + 1 } := by
        rw [loopStep]
        simp only [hemp, Bool.not_true, Bool.false_eq_true, if_false]
      have hev : stepEvents fetch s = [.appendFail s.page] := by
        rw [stepEvents]
        simp only [hemp, Bool.not_true, Bool.false_eq_true, if_false]
      have hih := ih f
        { page := s.page + 1, consecutiveEmpty := s.consecutiveEmpty + 1,
          failLog := s.failLog ++ [s.page], seasonsFile := s.seasonsFile,
          peaksFile := s.peaksFile, checkpoint := s.checkpoint,
          fetchCount := s.fetchCount + 1 }
        (by show s.consecutiveEmpty + 1 + k = STOP_AFTER; omega)
        (by omega)
      simp only [runLoop, if_pos hrun, hstep, hev, hih, List.cons_append, List.nil_append]
      have e1 : s.page + 1 + k = s.page + (k + 1) := by omega
      have e2 : s.fetchCount + 1 + k = s.fetchCount + (k + 1) := by omega
      have hlog : (s.failLog ++ [s.page]) ++ (List.range k).map (fun j => s.page + 1 + j)
          = s.failLog ++ (List.range (k + 1)).map (fun j => s.page + j) := by
        rw [List.append_assoc]
        show s.failLog ++ (s.page :: (List.range k).map (fun j => s.page + 1 + j)) = _
        rw [range_map_shift (fun m => m) s.page k]
      have hevs : REv.appendFail s.page
            :: (List.range k).map (fun j => REv.appendFail (s.page + 1 + j))
          = (List.range (k + 1)).map (fun j => REv.appendFail (s.page + j)) :=
        range_map_shift (fun m => REv.appendFail m) s.page k
      rw [e1, e2, hlog, hevs]

/-- C5 (stop rule with exact count from the resume point): the harvest loop
resumes at `checkpoint + 1` when `last_page.txt` exists and at page 1
otherwise (first conjunct); and under a fetch that always decodes zero
records, a run with fuel at least `STOP_AFTER` performs exactly
`STOP_AFTER` fetch attempts starting at the resume point, appends exactly
the `STOP_AFTER` consecutive page indices from the resume point to the
failed-page log, never writes the checkpoint, and its whole event trace is
those failed-page appends — independent of the fuel. -/
theorem C5_stop_rule (fetch : Nat → List JSON × List JSON)
    (hfetch : ∀ p, fetch p = ([], []))
    (cp : Option Nat) (flog : List Nat) (sf pf : List JSON) (fuel : Nat)
    (hfuel : STOP_AFTER ≤ fuel) :
    (initState cp flog sf pf).page = (match cp with | some n => n + 1 | none => 1)
    ∧ (runLoop fetch fuel (initState cp flog sf pf)).1.fetchCount = STOP_AFTER
    ∧ (runLoop fetch fuel (initState cp flog sf pf)).1.failLog
        = flog ++ (List.range STOP_AFTER).map (fun j => (initState cp flog sf pf).page + j)
    ∧ (runLoop fetch fuel (initState cp flog sf pf)).1.checkpoint = cp
    ∧ (∀ p, REv.writeCheckpoint p ∉ (runLoop fetch fuel (initState cp flog sf pf)).2)
    ∧ (runLoop fetch fuel (initState cp flog sf pf)).2
        = (List.range STOP_AFTER).map
            (fun j => REv.appendFail ((initState cp flog sf pf).page + j)) := by
  have hrun := runLoop_empty fetch hfetch STOP_AFTER fuel (initState cp flog sf pf)
    (by show 0 + STOP_AFTER = STOP_AFTER; omega) hfuel
  refine ⟨rfl, ?_, ?_, ?_, ?_, ?_⟩
  · rw [hrun]; rfl
  · rw [hrun]; rfl
  · rw [hrun]; rfl
  · intro p hmem
    rw [hrun] at hmem
    simp only [List.mem_map] at hmem
    obtain ⟨j, _, heq⟩ := hmem
    exact REv.noConfusion heq
  · rw [hrun]

/-- Witness for `C5_stop_rule`: the always-empty fetch stub, checkpoint 4
(resume point 5), fuel 10. -/
theorem C5_stop_rule_witness :
    (initState (some 4) [] [] []).page = 5
    ∧ (runLoop (fun _ => ([], [])) 10 (initState (some 4) [] [] [])).1.fetchCount = STOP_AFTER
    ∧ (runLoop (fun _ => ([], [])) 10 (initState (some 4) [] [] [])).1.failLog
        = [] ++ (List.range STOP_AFTER).map (fun j => (initState (some 4) [] [] []).page + j)
    ∧ (runLoop (fun _ => ([], [])) 10 (initState (some 4) [] [] [])).1.checkpoint = some 4
    ∧ (∀ p, REv.writeCheckpoint p ∉ (runLoop (fun _ => ([], [])) 10 (initState (some 4) [] [] [])).2)
    ∧ (runLoop (fun _ => ([], [])) 10 (initState (some 4) [] [] [])).2
        = (List.range STOP_AFTER).map
            (fun j => REv.appendFail ((initState (some 4) [] [] []).page + j)) :=
  C5_stop_rule (fun _ => ([], [])) (fun _ => rfl) (some 4) [] [] [] 10 (by decide)

/-- An element found by index is a member. -/
theorem getElem?_some_mem {α : Type} {l : List α} {n : Nat} {a : α}
    (h : l[n]? = some a) : a ∈ l := by
  have h2 : l.get? n = some a := by rw [List.get?_eq_getElem?]; exact h
  exact List.get?_mem h2

/-- A member is found at some in-range index. -/
theorem mem_getElem?_exists {α : Type} {l : List α} {a : α} (h : a ∈ l) :
    ∃ n : Nat, n < l.length ∧ l[n]? = some a := by
  obtain ⟨n, hn⟩ := List.get_of_mem h
  refine ⟨n.1, n.isLt, ?_⟩
  rw [List.getElem?_eq_getElem n.isLt, ← hn]
  rfl

/-- Checkpoint-ordering of the regional harvest trace: wherever the trace
writes the checkpoint for a page, that page decoded at least one record,
and the two positions immediately before the write are the appends of
exactly that page's season and peak records. -/
theorem runLoop_checkpoint_trace (fetch : Nat → List JSON × List JSON) :
    ∀ (fuel : Nat) (s : HState) (j : Nat) (p : Nat),
      ((runLoop fetch fuel s).2)[j]? = some (REv.writeCheckpoint p) →
      (fetch p).2 ≠ []
      ∧ 2 ≤ j
      ∧ ((runLoop fetch fuel s).2)[j - 2]? = some (REv.appendSeason (fetch p).1)
      ∧ ((runLoop fetch fuel s).2)[j - 1]? = some (REv.appendPeak (fetch p).2) := by
  intro fuel
  induction fuel with
  | zero =>
    intro s j p h
    rw [runLoop] at h
    simp at h
  | succ f ih =>
    intro s j p h
    by_cases hg : s.consecutiveEmpty < STOP_AFTER
    · simp only [runLoop, if_pos hg] at h ⊢
      cases hemp : (fetch s.page).2.isEmpty with
      | true =>
        have hev : stepEvents fetch s = [.appendFail s.page] := by
          rw [stepEvents]
          simp only [hemp, Bool.not_true, Bool.false_eq_true, if_false]
        rw [hev, List.singleton_append] at h ⊢
        cases j with
        | zero =>
          rw [List.getElem?_cons_zero] at h
          exact absurd (Option.some.inj h) (by intro hx; exact REv.noConfusion hx)
        | succ j1 =>
          rw [List.getElem?_cons_succ] at h
          obtain ⟨h1, h2, h3, h4⟩ := ih (loopStep fetch s) j1 p h
          refine ⟨h1, by omega, ?_, ?_⟩
          · have e : j1 + 1 - 2 = (j1 - 2) + 1 := by omega
            rw [e, List.getElem?_cons_succ]
            exact h3
          · have e : j1 + 1 - 1 = (j1 - 1) + 1 := by omega
            rw [e, List.getElem?_cons_succ]
            exact h4
      | false =>
        have hev : stepEvents fetch s
            = [.appendSeason (fetch s.page).1, .appendPeak (fetch s.page).2,
               .writeCheckpoint s.page] := by
          rw [stepEvents]
          simp only [hemp, Bool.not_false, if_true]
        rw [hev, List.cons_append, List.cons_append, List.cons_append,
          List.nil_append] at h ⊢
        cases j with
        | zero =>
          rw [List.getElem?_cons_zero] at h
          exact absurd (Option.some.inj h) (by intro hx; exact REv.noConfusion hx)
        | succ j1 =>
          rw [List.getElem?_cons_succ] at h
          cases j1 with
          | zero =>
            rw [List.getElem?_cons_zero] at h
            exact absurd (Option.some.inj h) (by intro hx; exact REv.noConfusion hx)
          | succ j2 =>
            rw [List.getElem?_cons_succ] at h
            cases j2 with
            | zero =>
              rw [List.getElem?_cons_zero] at h
              have hpage : s.page = p := by
                have := Option.some.inj h
                injection this
              subst hpage
              have hne : (fetch s.page).2 ≠ [] := by
                intro hnil
                rw [hnil] at hemp
                exact Bool.noConfusion hemp
              refine ⟨hne, by omega, ?_, ?_⟩
              · rw [List.getElem?_cons_zero]
              · rw [List.getElem?_cons_succ, List.getElem?_cons_zero]
            | succ j3 =>
              rw [List.getElem?_cons_succ] at h
              obtain ⟨h1, h2, h3, h4⟩ := ih (loopStep fetch s) j3 p h
              refine ⟨h1, by omega, ?_, ?_⟩
              · have e : j3 + 1 + 1 + 1 - 2 = (j3 - 2) + 1 + 1 + 1 := by omega
                rw [e, List.getElem?_cons_succ, List.getElem?_cons_succ,
                  List.getElem?_cons_succ]
                exact h3
              · have e : j3 + 1 + 1 + 1 - 1 = (j3 - 1) + 1 + 1 + 1 := by omega
                rw [e, List.getElem?_cons_succ, List.getElem?_cons_succ,
                  List.getElem?_cons_succ]
                exact h4
    · simp only [runLoop, if_neg hg] at h
      simp at h

/-- Every event of a per-page append block is an append, never a
checkpoint write. -/
theorem globalPageEvents_no_checkpoint (byRegion : List (String × List (JSON × JSON)))
    (e : GEv) (he : e ∈ globalPageEvents byRegion) (q : Nat) :
    e ≠ GEv.writeCheckpoint q := by
  rw [globalPageEvents, List.mem_flatMap] at he
  obtain ⟨rv, _, hmem⟩ := he
  simp only [List.mem_cons, List.not_mem_nil, or_false] at hmem
  rcases hmem with rfl | rfl | rfl | rfl
  · exact fun hx => GEv.noConfusion hx
  · exact fun hx => GEv.noConfusion hx
  · exact fun hx => GEv.noConfusion hx
  · exact fun hx => GEv.noConfusion hx

/-- Checkpoint-ordering of the global harvest trace: wherever the trace
writes the checkpoint for a page, that page decoded a non-empty
`by_region` mapping and every one of that page's bucket appends — the
region-bucket and global-bucket season and peak appends for each decoded
region — occurs earlier in the trace. -/
theorem gRunLoop_checkpoint_trace (fetch : Nat → List (String × List (JSON × JSON))) :
    ∀ (fuel : Nat) (s : GState) (j : Nat) (p : Nat),
      ((gRunLoop fetch fuel s).2)[j]? = some (GEv.writeCheckpoint p) →
      fetch p ≠ []
      ∧ ∀ e ∈ globalPageEvents (fetch p),
          ∃ k, k < j ∧ ((gRunLoop fetch fuel s).2)[k]? = some e := by
  intro fuel
  induction fuel with
  | zero =>
    intro s j p h
    rw [gRunLoop] at h
    simp at h
  | succ f ih =>
    intro s j p h
    by_cases hg : s.consecutiveEmpty < STOP_AFTER
    · simp only [gRunLoop, if_pos hg] at h ⊢
      cases hemp : (fetch s.page).isEmpty with
      | true =>
        have hev : gStepEvents fetch s = [.appendFail s.page] := by
          rw [gStepEvents]
          simp only [hemp, Bool.not_true, Bool.false_eq_true, if_false]
        rw [hev, List.singleton_append] at h ⊢
        cases j with
        | zero =>
          rw [List.getElem?_cons_zero] at h
          exact absurd (Option.some.inj h) (by intro hx; exact GEv.noConfusion hx)
        | succ j1 =>
          rw [List.getElem?_cons_succ] at h
          obtain ⟨h1, h2⟩ := ih (gLoopStep fetch s) j1 p h
          refine ⟨h1, ?_⟩
          intro e he
          obtain ⟨k, hk, hgk⟩ := h2 e he
          refine ⟨k + 1, by omega, ?_⟩
          rw [List.getElem?_cons_succ]
          exact hgk
      | false =>
        have hev : gStepEvents fetch s
            = globalPageEvents (fetch s.page) ++ [.writeCheckpoint s.page] := by
          rw [gStepEvents]
          simp only [hemp, Bool.not_false, if_true]
        rw [hev, List.append_assoc, List.singleton_append] at h ⊢
        by_cases hj : j < (globalPageEvents (fetch s.page)).length
        · rw [List.getElem?_append, if_pos hj] at h
          have hmem : GEv.writeCheckpoint p ∈ globalPageEvents (fetch s.page) :=
            getElem?_some_mem h
          exact absurd rfl
            (globalPageEvents_no_checkpoint (fetch s.page) _ hmem p)
        · rw [List.getElem?_append, if_neg hj] at h
          cases hj2 : j - (globalPageEvents (fetch s.page)).length with
          | zero =>
            rw [hj2, List.getElem?_cons_zero] at h
            have hpage : s.page = p := by
              have := Option.some.inj h
              injection this
            subst hpage
            have hne : fetch s.page ≠ [] := by
              intro hnil
              rw [hnil] at hemp
              exact Bool.noConfusion hemp
            have hjlen : j = (globalPageEvents (fetch s.page)).length := by omega
            refine ⟨hne, ?_⟩
            intro e he
            obtain ⟨n, hn, hgn⟩ := mem_getElem?_exists he
            refine ⟨n, by omega, ?_⟩
            rw [List.getElem?_append, if_pos hn]
            exact hgn
          | succ m =>
            rw [hj2, List.getElem?_cons_succ] at h
            obtain ⟨h1, h2⟩ := ih (gLoopStep fetch s) m p h
            refine ⟨h1, ?_⟩
            intro e he
            obtain ⟨k, hk, hgk⟩ := h2 e he
            refine ⟨(globalPageEvents (fetch s.page)).length + 1 + k, by omega, ?_⟩
            rw [List.getElem?_append, if_neg (by omega)]
            have e2 : (globalPageEvents (fetch s.page)).length + 1 + k
                - (globalPageEvents (fetch s.page)).length = k + 1 := by omega
            rw [e2, List.getElem?_cons_succ]
            exact hgk
    · simp only [gRunLoop, if_neg hg] at h
      simp at h

/-- C6 (checkpoint write ordering, at-least-once invariant): in both
harvest loops, whenever the file-system trace of a run writes the
checkpoint for a page, that page decoded at least one record — so
zero-record iterations never write the checkpoint — and all of that page's
bucket appends precede the checkpoint write: in the regional loop the
season and peak appends of exactly that page sit immediately before the
write, and in the global loop every region-bucket and global-bucket append
of the page's decoded rows occurs at an earlier trace position.  The
checkpoint is therefore never advanced past a page whose records have not
yet been appended. -/
theorem C6_checkpoint_write_ordering :
    (∀ (fetch : Nat → List JSON × List JSON) (fuel : Nat) (s : HState) (j p : Nat),
      ((runLoop fetch fuel s).2)[j]? = some (REv.writeCheckpoint p) →
      (fetch p).2 ≠ []
      ∧ 2 ≤ j
      ∧ ((runLoop fetch fuel s).2)[j - 2]? = some (REv.appendSeason (fetch p).1)
      ∧ ((runLoop fetch fuel s).2)[j - 1]? = some (REv.appendPeak (fetch p).2))
    ∧ (∀ (fetch : Nat → List (String × List (JSON × JSON))) (fuel : Nat) (s : GState)
        (j p : Nat),
      ((gRunLoop fetch fuel s).2)[j]? = some (GEv.writeCheckpoint p) →
      fetch p ≠ []
      ∧ ∀ e ∈ globalPageEvents (fetch p),
          ∃ k, k < j ∧ ((gRunLoop fetch fuel s).2)[k]? = some e) :=
  ⟨fun fetch fuel s j p h => runLoop_checkpoint_trace fetch fuel s j p h,
   fun fetch fuel s j p h => gRunLoop_checkpoint_trace fetch fuel s j p h⟩

/-- Witness for `C6_checkpoint_write_ordering`: a regional run whose page 1
decodes one row (checkpoint write at trace position 2, appends at 0 and 1),
and a global run whose page 1 decodes one `EU` row (checkpoint write at
trace position 4, all four appends earlier). -/
theorem C6_checkpoint_write_ordering_witness :
    (((fun p => if p = 1 then ([JSON.int 5], [JSON.int 6]) else ([], [])) 1).2 ≠ []
      ∧ 2 ≤ 2
      ∧ ((runLoop (fun p => if p = 1 then ([JSON.int 5], [JSON.int 6]) else ([], [])) 11
          (initState none [] [] [])).2)[2 - 2]?
        = some (REv.appendSeason
            ((fun p => if p = 1 then ([JSON.int 5], [JSON.int 6]) else ([], [])) 1).1)
      ∧ ((runLoop (fun p => if p = 1 then ([JSON.int 5], [JSON.int 6]) else ([], [])) 11
          (initState none [] [] [])).2)[2 - 1]?
        = some (REv.appendPeak
            ((fun p => if p = 1 then ([JSON.int 5], [JSON.int 6]) else ([], [])) 1).2))
    ∧ ((fun p => if p = 1 then [("EU", [(JSON.int 1, JSON.int 2)])] else []) 1 ≠ []
      ∧ ∀ e ∈ globalPageEvents
          ((fun p => if p = 1 then [("EU", [(JSON.int 1, JSON.int 2)])] else []) 1),
          ∃ k, k < 4
            ∧ ((gRunLoop (fun p => if p = 1 then [("EU", [(JSON.int 1, JSON.int 2)])] else []) 11
                { page := 1, consecutiveEmpty := 0, checkpoint := none }).2)[k]? = some e) :=
  ⟨C6_checkpoint_write_ordering.1
      (fun p => if p = 1 then ([JSON.int 5], [JSON.int 6]) else ([], [])) 11
      (initState none [] [] []) 2 1 rfl,
   C6_checkpoint_write_ordering.2
      (fun p => if p = 1 then [("EU", [(JSON.int 1, JSON.int 2)])] else []) 11
      { page := 1, consecutiveEmpty := 0, checkpoint := none } 4 1 rfl⟩

/-- The bounded attempt loop, characterised: starting at attempt `a` with
`budget` attempts left, the result is the fetch of the first attempt number
(in order) whose result has rows, and `none` when no attempt in the window
does. -/
theorem retryAttemptsFrom_spec (fetch : Nat → Nat → List JSON × List JSON) (p : Nat) :
    ∀ (budget a : Nat),
      retryAttemptsFrom fetch p a budget
        = (((List.range budget).map (· + a)).find? (fun t => !(fetch p t).2.isEmpty)).map
            (fun t => fetch p t) := by
  intro budget
  induction budget with
  | zero => intro a; rfl
  | succ b ih =>
    intro a
    rw [retryAttemptsFrom, List.range_succ_eq_map, List.map_cons, List.map_map]
    have h0 : (0 : Nat) + a = a := by omega
    rw [h0]
    have hcomp : ((· + a) ∘ Nat.succ) = (· + (a + 1)) := by
      funext j
      simp only [Function.comp_apply]
      omega
    rw [hcomp]
    cases hemp : (fetch p a).2.isEmpty with
    | true =>
      rw [List.find?_cons_of_neg _ (by simp [hemp])]
      simp only [hemp, Bool.not_true, Bool.false_eq_true, if_false]
      exact ih (a + 1)
    | false =>
      rw [List.find?_cons_of_pos _ (by simp [hemp])]
      simp only [hemp, Bool.not_false, if_true, Option.map_some]
      rfl

/-- The per-page loop of the retry runner, characterised: its result is the
concatenation of the recovered pages' rows appended once each, in page
order, to the bucket files, together with the pages whose every attempt
stayed empty, kept in order. -/
theorem retryFold_spec (fetch : Nat → Nat → List JSON × List JSON) :
    ∀ (ps : List Nat) (files : RetryFiles) (still : List Nat),
      retryFold fetch ps files still
        = ({ seasonsFile := files.seasonsFile
              ++ (ps.filterMap (retry_page fetch)).flatMap Prod.fst,
             peaksFile := files.peaksFile
              ++ (ps.filterMap (retry_page fetch)).flatMap Prod.snd },
           still ++ ps.filter (fun p => (retry_page fetch p).isNone)) := by
  intro ps
  induction ps with
  | nil =>
    intro files still
    rw [retryFold]
    simp only [List.filterMap_nil, List.flatMap_nil, List.append_nil, List.filter_nil]
  | cons p rest ih =>
    intro files still
    rw [retryFold]
    cases hr : retry_page fetch p with
    | some r =>
      refine (ih _ _).trans ?_
      simp only [List.filterMap_cons, hr, List.flatMap_cons, List.filter_cons,
        Option.isNone_some, Bool.false_eq_true, if_false, List.append_assoc]
    | none =>
      refine (ih _ _).trans ?_
      simp only [List.filterMap_cons, hr, List.filter_cons, Option.isNone_none, if_true,
        List.append_assoc, List.singleton_append]

/-- C7 (RetryRunner convergence and full-replace semantics):
(1) the persisted failed-page set is loaded deduplicated and sorted
ascending; (2) each page is attempted up to the retry budget, stopping at
the first attempt that yields at least one record, whose fetched result is
returned; (3) an absent failed-page file is a no-op with no overwrite, and
(4) so is one with no parseable page numbers; (5) otherwise the run appends
each recovered page's rows to both bucket files exactly once, in page
order, and overwrites the failed-page file with exactly the still-failing
pages (recovered pages dropped — full replace); (6) concretely, from log
`[3, 7, 12]` with page 7 succeeding on its second attempt and 3 and 12
never succeeding, the resulting log is exactly `[3, 12]` and the buckets
contain page 7's rows exactly once. -/
theorem C7_retry_convergence :
    (∀ lns : List String,
      List.Sorted (· ≤ ·) (loadPages lns) ∧ (loadPages lns).Nodup)
    ∧ (∀ (fetch : Nat → Nat → List JSON × List JSON) (p : Nat),
      retry_page fetch p = (firstHit fetch p).map (fun t => fetch p t))
    ∧ (∀ (fetch : Nat → Nat → List JSON × List JSON) (files : RetryFiles),
      retry_main fetch none files = (files, none))
    ∧ (∀ (fetch : Nat → Nat → List JSON × List JSON) (lns : List String) (files : RetryFiles),
      loadPages lns = [] → retry_main fetch (some lns) files = (files, none))
    ∧ (∀ (fetch : Nat → Nat → List JSON × List JSON) (lns : List String) (files : RetryFiles),
      loadPages lns ≠ [] →
      retry_main fetch (some lns) files
        = ({ seasonsFile := files.seasonsFile
              ++ ((loadPages lns).filterMap (retry_page fetch)).flatMap Prod.fst,
             peaksFile := files.peaksFile
              ++ ((loadPages lns).filterMap (retry_page fetch)).flatMap Prod.snd },
           some ((loadPages lns).filter (fun p => (retry_page fetch p).isNone))))
    ∧ retry_main
        (fun p a => if p = 7 ∧ a = 2 then ([JSON.int 100], [JSON.int 200]) else ([], []))
        (some ["3", "7", "12"]) { seasonsFile := [], peaksFile := [] }
      = ({ seasonsFile := [JSON.int 100], peaksFile := [JSON.int 200] }, some [3, 12]) := by
  refine ⟨?_, ?_, ?_, ?_, ?_, ?_⟩
  · intro lns
    exact ⟨List.sorted_insertionSort _ _,
      (List.perm_insertionSort _ _).symm.nodup (List.nodup_dedup _)⟩
  · intro fetch p
    rw [retry_page, firstHit, retryAttemptsFrom_spec]
  · intro fetch files
    rfl
  · intro fetch lns files h
    simp only [retry_main]
    rw [h]
    simp
  · intro fetch lns files h
    simp only [retry_main]
    rw [if_neg (by intro hc; exact h (List.isEmpty_iff.mp hc)), retryFold_spec]
    simp only [List.nil_append]
  · rfl

/-- Witness for `C7_retry_convergence`: the no-op conjunct on a file with
no parseable lines, and the full-replace conjunct on the log
`["3", "7", "12"]` with the stub that succeeds for page 7 on attempt 2. -/
theorem C7_retry_convergence_witness :
    retry_main (fun _ _ => ([], [])) (some ["x", ""]) { seasonsFile := [], peaksFile := [] }
      = ({ seasonsFile := [], peaksFile := [] }, none)
    ∧ retry_main
        (fun p a => if p = 7 ∧ a = 2 then ([JSON.int 100], [JSON.int 200]) else ([], []))
        (some ["3", "7", "12"]) { seasonsFile := [], peaksFile := [] }
      = ({ seasonsFile := [] ++ ((loadPages ["3", "7", "12"]).filterMap
              (retry_page (fun p a =>
                if p = 7 ∧ a = 2 then ([JSON.int 100], [JSON.int 200]) else ([], [])))).flatMap
              Prod.fst,
           peaksFile := [] ++ ((loadPages ["3", "7", "12"]).filterMap
              (retry_page (fun p a =>
                if p = 7 ∧ a = 2 then ([JSON.int 100], [JSON.int 200]) else ([], [])))).flatMap
              Prod.snd },
         some ((loadPages ["3", "7", "12"]).filter (fun p =>
            (retry_page (fun p a =>
              if p = 7 ∧ a = 2 then ([JSON.int 100], [JSON.int 200]) else ([], [])) p).isNone))) :=
  ⟨C7_retry_convergence.2.2.2.1 (fun _ _ => ([], [])) ["x", ""]
      { seasonsFile := [], peaksFile := [] } rfl,
   C7_retry_convergence.2.2.2.2.1
      (fun p a => if p = 7 ∧ a = 2 then ([JSON.int 100], [JSON.int 200]) else ([], []))
      ["3", "7", "12"] { seasonsFile := [], peaksFile := [] } (by decide)⟩
